import Mathlib

/-!
Verification of the OnlyArt car-poster pipeline against its specification.

The Python sources are shallowly embedded: Python strings become lists of
characters (`PyStr`), dictionaries become association lists in insertion
order, fallible operations return `Option`, and every network, browser or
rendering effect is supplied by an explicit environment of oracle
functions.  Parsed HTML documents are modelled as structured pages (anchor
lists, table rows, definition lists, image tags, title), i.e. the output
of the HTML parser is taken as given while all the code that consumes it
is embedded faithfully.
-/

/-- Python strings, modelled as lists of characters. -/
abbrev PyStr := List Char

/-- Coerce a Lean string literal into the model. -/
def str (s : String) : PyStr := s.data

/-- ASCII lowercasing of one character, as Python `str.lower` acts on the
ASCII range (non-ASCII case mapping is not exercised by this program). -/
def lowerChar (c : Char) : Char :=
  if 65 ≤ c.toNat ∧ c.toNat ≤ 90 then Char.ofNat (c.toNat + 32) else c

/-- Python `str.lower`. -/
def pyLower (s : PyStr) : PyStr := s.map lowerChar

/-- Whitespace as stripped by Python `str.strip` (space, tab, LF, CR). -/
def wsChar (c : Char) : Bool :=
  c.toNat == 32 || c.toNat == 9 || c.toNat == 10 || c.toNat == 13

/-- Python `str.strip`: drop leading and trailing whitespace. -/
def pyStrip (s : PyStr) : PyStr :=
  List.rdropWhile wsChar (List.dropWhile wsChar s)

/-- Python substring test `needle in hay`. -/
def containsSub : PyStr → PyStr → Bool
  | n, [] => n.isEmpty
  | n, c :: rest => n.isPrefixOf (c :: rest) || containsSub n rest

/-- Python `s.replace(old, new)` for single-character replacements. -/
def replaceChar (old new : Char) (s : PyStr) : PyStr :=
  s.map fun c => if c == old then new else c

/-- Python `s.replace(" ", "")`: delete every space. -/
def delSpaces (s : PyStr) : PyStr := s.filter fun c => !(c == ' ')

/-- Python `s.rstrip("/")`. -/
def rstripSlash (s : PyStr) : PyStr :=
  (List.dropWhile (fun c => c == '/') s.reverse).reverse

/-- Python `s.split(sep)` for a one-character separator. -/
def splitOnChar (sep : Char) (s : PyStr) : List PyStr :=
  match s with
  | [] => [[]]
  | c :: rest =>
    let tail := splitOnChar sep rest
    if c == sep then [] :: tail
    else
      match tail with
      | [] => [[c]]
      | t :: ts => (c :: t) :: ts

/-- Python `s.partition(sep)` for a one-character separator: the part
before the first occurrence, whether it occurred, and the part after. -/
def partitionChar (sep : Char) : PyStr → PyStr × Bool × PyStr
  | [] => ([], false, [])
  | c :: rest =>
    if c == sep then ([], true, rest)
    else
      let (pre, found, post) := partitionChar sep rest
      (c :: pre, found, post)

/-- Python `s.split(sep)[0]`: the part before the first occurrence of the
separator, or the whole string when absent. -/
def takeBeforeChar (sep : Char) (s : PyStr) : PyStr :=
  (partitionChar sep s).1

/-- Python `s.isdigit()` restricted to ASCII digits. -/
def pyIsDigit (s : PyStr) : Bool :=
  !s.isEmpty && s.all fun c => c.isDigit

/-- Python `int(s)` on a digit string. -/
def pyToNat (s : PyStr) : Nat :=
  s.foldl (fun acc c => acc * 10 + (c.toNat - 48)) 0

/-- Normalization used throughout the code: `x.strip().lower()`. -/
def pyNorm (s : PyStr) : PyStr := pyLower (pyStrip s)

theorem lowerChar_idem (c : Char) : lowerChar (lowerChar c) = lowerChar c := by
  unfold lowerChar
  split
  · rename_i h
    obtain ⟨h1, h2⟩ := h
    interval_cases h3 : c.toNat <;> simp_all
  · rfl

theorem wsChar_lowerChar (c : Char) : wsChar (lowerChar c) = wsChar c := by
  unfold lowerChar
  split
  · rename_i h
    obtain ⟨h1, h2⟩ := h
    interval_cases h3 : c.toNat <;> (simp only [wsChar, h3]; decide)
  · rfl

theorem pyLower_idem (s : PyStr) : pyLower (pyLower s) = pyLower s := by
  simp only [pyLower, List.map_map, Function.comp]
  exact List.map_congr_left fun c _ => lowerChar_idem c

theorem dropWhile_map_comm (s : PyStr) :
    List.dropWhile wsChar (s.map lowerChar) =
    (List.dropWhile wsChar s).map lowerChar := by
  induction s with
  | nil => rfl
  | cons c rest ih =>
    simp only [List.map_cons, List.dropWhile_cons, wsChar_lowerChar]
    split <;> simp_all

theorem rdropWhile_map_comm (s : PyStr) :
    List.rdropWhile wsChar (s.map lowerChar) =
    (List.rdropWhile wsChar s).map lowerChar := by
  simp only [List.rdropWhile, ← List.map_reverse, dropWhile_map_comm]

theorem pyStrip_pyLower (s : PyStr) :
    pyStrip (pyLower s) = pyLower (pyStrip s) := by
  simp only [pyStrip, pyLower, dropWhile_map_comm, rdropWhile_map_comm]

theorem pyStrip_idem (s : PyStr) : pyStrip (pyStrip s) = pyStrip s := by
  unfold pyStrip
  have h1 : List.dropWhile wsChar
      (List.rdropWhile wsChar (List.dropWhile wsChar s)) =
      List.rdropWhile wsChar (List.dropWhile wsChar s) := by
    rw [List.dropWhile_eq_self_iff]
    intro hl
    have hpre := List.rdropWhile_prefix wsChar (List.dropWhile wsChar s)
    have hlen : 0 < (List.dropWhile wsChar s).length :=
      lt_of_lt_of_le hl hpre.length_le
    have hget := hpre.getElem (n := 0) hl
    have hnot := List.dropWhile_get_zero_not wsChar s hlen
    simp only [List.get_eq_getElem] at hnot ⊢
    rw [hget]
    exact hnot
  rw [h1, List.rdropWhile_idempotent]

theorem pyNorm_strip_lower (s : PyStr) :
    pyNorm (pyStrip (pyLower s)) = pyNorm s := by
  simp only [pyNorm, pyStrip_idem, pyStrip_pyLower, pyLower_idem]

/-- One attribute mapping: label to value pairs in insertion order. -/
abbrev SpecMap := List (PyStr × PyStr)

/-- Builds one knowledge-base attribute mapping from string literals. -/
def specMap (l : List (String × String)) : SpecMap :=
  l.map fun kv => (str kv.1, str kv.2)

/-- Demo/fallback knowledge base `DEMO_SPECS_DB` from `main.py`, as a list
of ((make, model), attributes) entries in the dictionary insertion order. -/
def DEMO_SPECS_DB : List ((PyStr × PyStr) × SpecMap) :=
  [ ((str "audi", str "tt rs"), specMap
      [("Engine", "2.5L TFSI 5-cyl Turbo"),
       ("Power", "400 HP @ 5,850 rpm"),
       ("Torque", "354 lb-ft @ 1,700 rpm"),
       ("0-60 mph", "3.6 s"),
       ("Top Speed", "174 mph"),
       ("Drivetrain", "Quattro AWD"),
       ("Transmission", "7-speed S tronic DCT")]),
    ((str "bmw", str "m3"), specMap
      [("Engine", "3.0L S58 Twin-Turbo I6"),
       ("Power", "473 HP @ 6,250 rpm"),
       ("Torque", "406 lb-ft @ 2,750 rpm"),
       ("0-60 mph", "3.8 s"),
       ("Top Speed", "180 mph"),
       ("Drivetrain", "M xDrive AWD"),
       ("Transmission", "8-speed M Steptronic")]),
    ((str "porsche", str "911 turbo"), specMap
      [("Engine", "3.7L Twin-Turbo Flat-6"),
       ("Power", "572 HP @ 6,750 rpm"),
       ("Torque", "553 lb-ft @ 2,500 rpm"),
       ("0-60 mph", "2.7 s"),
       ("Top Speed", "198 mph"),
       ("Drivetrain", "AWD"),
       ("Transmission", "8-speed PDK")]),
    ((str "porsche", str "911 turbo s"), specMap
      [("Engine", "3.8L Twin-Turbo Flat-6"),
       ("Power", "640 HP @ 6,750 rpm"),
       ("Torque", "590 lb-ft @ 2,500 rpm"),
       ("0-60 mph", "2.6 s"),
       ("Top Speed", "205 mph"),
       ("Drivetrain", "AWD"),
       ("Transmission", "8-speed PDK")]),
    ((str "nissan", str "gt-r nismo"), specMap
      [("Engine", "3.8L VR38DETT V6 Twin-Turbo"),
       ("Power", "600 HP @ 6,800 rpm"),
       ("Torque", "481 lb-ft @ 3,600 rpm"),
       ("0-60 mph", "2.5 s"),
       ("Top Speed", "205 mph"),
       ("Drivetrain", "ATTESA E-TS AWD"),
       ("Transmission", "6-speed Dual-Clutch")]),
    ((str "nissan", str "gt-r"), specMap
      [("Engine", "3.8L VR38DETT V6 Twin-Turbo"),
       ("Power", "565 HP @ 6,800 rpm"),
       ("Torque", "467 lb-ft @ 3,300 rpm"),
       ("0-60 mph", "2.9 s"),
       ("Top Speed", "196 mph"),
       ("Drivetrain", "ATTESA E-TS AWD"),
       ("Transmission", "6-speed Dual-Clutch")]),
    ((str "mercedes-benz", str "amg gt"), specMap
      [("Engine", "4.0L V8 Biturbo"),
       ("Power", "523 HP @ 6,250 rpm"),
       ("Torque", "494 lb-ft @ 1,900 rpm"),
       ("0-60 mph", "3.7 s"),
       ("Top Speed", "193 mph"),
       ("Drivetrain", "RWD"),
       ("Transmission", "7-speed AMG DCT")]),
    ((str "lamborghini", str "huracan"), specMap
      [("Engine", "5.2L V10 NA"),
       ("Power", "631 HP @ 8,000 rpm"),
       ("Torque", "417 lb-ft @ 6,500 rpm"),
       ("0-60 mph", "2.9 s"),
       ("Top Speed", "202 mph"),
       ("Drivetrain", "AWD"),
       ("Transmission", "7-speed LDF DCT")]),
    ((str "ferrari", str "488"), specMap
      [("Engine", "3.9L V8 Twin-Turbo"),
       ("Power", "661 HP @ 8,000 rpm"),
       ("Torque", "561 lb-ft @ 3,000 rpm"),
       ("0-60 mph", "2.85 s"),
       ("Top Speed", "205 mph"),
       ("Drivetrain", "RWD"),
       ("Transmission", "7-speed F1 DCT")]),
    ((str "toyota", str "supra"), specMap
      [("Engine", "3.0L B58 Turbo I6"),
       ("Power", "382 HP @ 5,800 rpm"),
       ("Torque", "368 lb-ft @ 1,800 rpm"),
       ("0-60 mph", "3.9 s"),
       ("Top Speed", "155 mph"),
       ("Drivetrain", "RWD"),
       ("Transmission", "8-speed Auto")]) ]

/-- Generic default attribute mapping `_DEFAULT_DEMO` from `main.py`. -/
def DEFAULT_DEMO : SpecMap :=
  specMap
    [("Engine", "Turbocharged"),
     ("Power", "300+ HP"),
     ("Torque", "300+ lb-ft"),
     ("0-60 mph", "4.5 s"),
     ("Top Speed", "155 mph"),
     ("Drivetrain", "AWD"),
     ("Transmission", "Automatic")]

/-- Predicate of the exact-key branch of `_get_demo_specs`. -/
def kbExactP (mk md : PyStr) (e : (PyStr × PyStr) × SpecMap) : Bool :=
  e.1.1 == mk && e.1.2 == md

/-- Predicate of the same-make model-substring branch of `_get_demo_specs`:
same make and a substring match in either direction on the model. -/
def kbModelP (mk md : PyStr) (e : (PyStr × PyStr) × SpecMap) : Bool :=
  e.1.1 == mk && (containsSub e.1.2 md || containsSub md e.1.2)

/-- Predicate of the make-substring branch of `_get_demo_specs`:
substring match in either direction on the make. -/
def kbMakeP (mk : PyStr) (e : (PyStr × PyStr) × SpecMap) : Bool :=
  containsSub mk e.1.1 || containsSub e.1.1 mk

/-- Body of `_get_demo_specs` after the two arguments were normalized. -/
def get_demo_specs_norm (mk md : PyStr) : SpecMap :=
  match DEMO_SPECS_DB.find? (kbExactP mk md) with
  | some e => e.2
  | none =>
    match DEMO_SPECS_DB.find? (kbModelP mk md) with
    | some e => e.2
    | none =>
      match DEMO_SPECS_DB.find? (kbMakeP mk) with
      | some e => e.2
      | none => DEFAULT_DEMO

/-- Fallback knowledge-base lookup `_get_demo_specs` from `main.py`:
normalize make and model with `strip().lower()`, then try the exact key,
a same-make model-substring match, a make-substring match, and finally
the generic default, in that order. -/
def get_demo_specs (make model : PyStr) : SpecMap :=
  get_demo_specs_norm (pyNorm make) (pyNorm model)

/-- Noise substring denylist `_CSS_NOISE_PATTERNS` of `src/catalog_parser.py`
(braces written with hex escapes). -/
def CSS_NOISE_PATTERNS : List PyStr :=
  [str "margin", str "padding", str "display", str "font-", str "color:",
   str "border", str "position", str "background", str "text-align",
   str "overflow", str "line-height", str "z-index", str "opacity",
   str "visibility", str "cursor", str "transform", str "transition",
   str "animation", str "flex", str "grid", str "outline",
   str "list-style", str "vertical-align", str "white-space", str "word-",
   str "letter-spacing", str "text-decoration", str "text-transform",
   str "box-", str "float", str "clear", str "appearance",
   str "\x7b", str "\x7d", str ";", str "!important", str "::",
   str "@media", str "@font", str "url(",
   str ".h1", str ".h2", str ".h3", str ".h4",
   str "rem;", str "rem\x7d", str "em;", str "px;", str "px\x7d",
   str "rgba", str "rgb(", str "hsl", str "var(--",
   str "cloudflare", str "javascript", str "stylesheet", str "recaptcha",
   str "http://", str "https://", str ".css", str ".js", str ".php",
   str "cookie", str "captcha", str "noscript", str "doctype"]

/-- Noise substring denylist `_CSS_NOISE` of `src/poster_generator.py`
(adds "content:", drops "doctype"). -/
def POSTER_CSS_NOISE : List PyStr :=
  [str "margin", str "padding", str "display", str "font-", str "color:",
   str "border", str "position", str "background", str "text-align",
   str "overflow", str "line-height", str "z-index", str "opacity",
   str "visibility", str "cursor", str "transform", str "transition",
   str "animation", str "flex", str "grid", str "outline",
   str "list-style", str "vertical-align", str "white-space", str "word-",
   str "letter-spacing", str "text-decoration", str "text-transform",
   str "box-", str "float", str "clear", str "content:", str "appearance",
   str "\x7b", str "\x7d", str ";", str "!important", str "::",
   str "@media", str "@font", str "url(",
   str ".h1", str ".h2", str ".h3", str ".h4",
   str "rem;", str "rem\x7d", str "em;", str "px;", str "px\x7d",
   str "rgba", str "rgb(", str "hsl", str "var(--",
   str "cloudflare", str "javascript", str "stylesheet", str "recaptcha",
   str "http://", str "https://", str ".css", str ".js", str ".php",
   str "cookie", str "captcha", str "noscript"]

namespace CatalogParser

/-- Noise classifier `_is_noise` of `src/catalog_parser.py`: lowercase and
strip, then flag empty texts, texts longer than 150 characters, and texts
containing any denylisted substring. -/
def is_noise (text : PyStr) : Bool :=
  let t := pyStrip (pyLower text)
  if t.isEmpty || 150 < t.length then true
  else CSS_NOISE_PATTERNS.any fun p => containsSub p t

end CatalogParser

/-- A `{url, name}` dictionary as produced by the listing/search parsers
and consumed by the resolution orchestrator. -/
structure ModelLink where
  url : PyStr
  name : PyStr
deriving DecidableEq, Repr

/-- An anchor element: `href` attribute and `get_text()` result. -/
structure Anchor where
  href : PyStr
  text : PyStr
deriving DecidableEq, Repr

/-- A table row: the `get_text()` of its `th`/`td` cells in order. -/
structure TableRow where
  cells : List PyStr
deriving DecidableEq, Repr

/-- A definition list: texts of its `dt` children and of its `dd` children. -/
structure DefList where
  dts : List PyStr
  dds : List PyStr
deriving DecidableEq, Repr

/-- A label-classed `div`/`span`/`p` element (class matching the pattern
spec/param/label/data/value) paired with its next sibling's text, when a
next sibling exists. -/
structure LabelPair where
  label : PyStr
  nextText : Option PyStr
deriving DecidableEq, Repr

/-- An `img` element with a non-absent `src`; missing attributes are the
empty string, as `img.get(attr, "")` yields. -/
structure ImgTag where
  src : PyStr
  alt : PyStr
  width : PyStr
  height : PyStr
deriving DecidableEq, Repr

/-- A parsed HTML document after `_clean_soup` stripped style/script/
noscript/link/meta nodes: the element streams the extraction code walks.
BeautifulSoup itself is not embedded; a fetched page is modelled directly
as this structure.  `imgs` is enumerated before cleaning, which only
removes non-image nodes. -/
structure Page where
  anchors : List Anchor
  tables : List (List TableRow)
  dls : List DefList
  labelPairs : List LabelPair
  imgs : List ImgTag
  title : Option PyStr
deriving DecidableEq, Repr

/-- URL library functions used by the code (`urllib.parse`), supplied as
an abstract environment: `urljoin base href` and `urlparse(url).path`. -/
structure UrlLib where
  urljoin : PyStr → PyStr → PyStr
  urlpath : PyStr → PyStr

/-- The `CarSpecs` dataclass of `src/catalog_parser.py`. -/
structure CarSpecs where
  make : PyStr
  model : PyStr
  full_name : PyStr
  specs : SpecMap
  image_url : Option PyStr
deriving DecidableEq, Repr

namespace CatalogParser

/-- Helper `_normalize_make`: `name.strip().lower().replace(" ", "_")`. -/
def normalize_make (name : PyStr) : PyStr :=
  replaceChar ' ' '_' (pyNorm name)

/-- Python `urllib.parse.quote_plus` restricted to the space-to-plus
rewriting; percent-escaping of reserved characters is not modelled, no
claim depends on it. -/
def quotePlus (s : PyStr) : PyStr :=
  replaceChar ' ' '+' s

/-- URL of a make's listing page, `get_make_url`. -/
def get_make_url (base make : PyStr) : PyStr :=
  rstripSlash base ++ str "/make/" ++ normalize_make make ++ str "/"

/-- URL of a free-text search page, `get_search_url`. -/
def get_search_url (base query : PyStr) : PyStr :=
  rstripSlash base ++ str "/search.php?q=" ++ quotePlus (pyStrip query)

/-- Known working car-page URLs, `KNOWN_CAR_URLS`, in insertion order. -/
def KNOWN_CAR_URLS : List ((PyStr × PyStr) × PyStr) :=
  [ ((str "audi", str "tt rs"),
     str "https://www.automobile-catalog.com/car/2018/2470640/audi_tt_rs_coupe_s-tronic.html"),
    ((str "audi", str "tt"),
     str "https://www.automobile-catalog.com/car/2018/2470640/audi_tt_rs_coupe_s-tronic.html"),
    ((str "bmw", str "m3"),
     str "https://www.automobile-catalog.com/car/2025/3317015/bmw_m3_competition_m_xdrive.html"),
    ((str "porsche", str "911 turbo"),
     str "https://www.automobile-catalog.com/car/2018/2871365/porsche_911_turbo_coupe.html"),
    ((str "porsche", str "911 turbo s"),
     str "https://www.automobile-catalog.com/car/2018/2871365/porsche_911_turbo_coupe.html"),
    ((str "porsche", str "911"),
     str "https://www.automobile-catalog.com/car/2018/2871365/porsche_911_turbo_coupe.html"),
    ((str "mercedes-benz", str "amg gt"),
     str "https://www.automobile-catalog.com/car/2020/2874950/mercedes-amg_gt_c_roadster.html"),
    ((str "mercedes", str "amg gt"),
     str "https://www.automobile-catalog.com/car/2020/2874950/mercedes-amg_gt_c_roadster.html"),
    ((str "nissan", str "gt-r"),
     str "https://www.automobile-catalog.com/car/2016/2183225/nissan_gt-r_nismo.html"),
    ((str "nissan", str "gt-r nismo"),
     str "https://www.automobile-catalog.com/car/2016/2183225/nissan_gt-r_nismo.html") ]

/-- First pass of `get_models_from_make_page`: the anchor loop with its
`seen` set of resolved URLs. -/
def modelsPass1 (u : UrlLib) (base make_lower : PyStr) :
    List Anchor → List PyStr → List ModelLink
  | [], _ => []
  | a :: rest, seen =>
    let href := pyStrip a.href
    let text := pyStrip a.text
    if text.isEmpty || 150 < text.length then
      modelsPass1 u base make_lower rest seen
    else
      let full := u.urljoin base href
      if seen.contains full then modelsPass1 u base make_lower rest seen
      else
        let path := pyLower (u.urlpath full)
        if containsSub (str "/car/") path && containsSub (str ".html") path then
          ⟨full, text⟩ :: modelsPass1 u base make_lower rest (full :: seen)
        else if containsSub (str "/make/" ++ make_lower ++ str "/") path then
          let parts := (splitOnChar '/' path).filter fun p => !p.isEmpty
          if 3 ≤ parts.length then
            ⟨full, text⟩ :: modelsPass1 u base make_lower rest (full :: seen)
          else modelsPass1 u base make_lower rest seen
        else modelsPass1 u base make_lower rest seen

/-- Second pass of `get_models_from_make_page`: the `by_name` dictionary,
keeping the first candidate per stripped display name of length at least
two. -/
def dedupByName : List ModelLink → List PyStr → List ModelLink
  | [], _ => []
  | m :: rest, used =>
    let name := pyStrip m.name
    if 2 ≤ name.length && !(used.contains name) then
      m :: dedupByName rest (name :: used)
    else dedupByName rest used

/-- Model-listing extraction `get_models_from_make_page`: filter anchors,
de-duplicate by resolved URL and then by display name, cap at 100. -/
def get_models_from_make_page (u : UrlLib) (page : Page) (base make : PyStr) :
    List ModelLink :=
  (dedupByName (modelsPass1 u base (normalize_make make) page.anchors []) []).take 100

/-- Python `s.replace(old, new)` for a non-empty needle. -/
def replaceSub (old new : PyStr) : PyStr → PyStr
  | [] => []
  | c :: rest =>
    if h : old.isPrefixOf (c :: rest) ∧ !old.isEmpty then
      new ++ replaceSub old new ((c :: rest).drop old.length)
    else
      c :: replaceSub old new rest
termination_by s => s.length
decreasing_by
  · simp only [List.length_drop]
    have hlen : old.length ≤ (c :: rest).length :=
      (List.isPrefixOf_iff_prefix.mp h.1).length_le
    have hpos : 0 < old.length := by
      cases old with
      | nil => simp at h
      | cons x xs => simp
    omega
  · simp

/-- Search-results extraction `get_car_links_from_search_page`. -/
def searchPass (u : UrlLib) (base : PyStr) :
    List Anchor → List PyStr → List ModelLink
  | [], _ => []
  | a :: rest, seen =>
    let href := pyStrip a.href
    let text := pyStrip a.text
    let full := u.urljoin base href
    let path := pyLower (u.urlpath full)
    if !containsSub (str "/car/") path || !containsSub (str ".html") path
        || seen.contains full then
      searchPass u base rest seen
    else
      let last := (splitOnChar '/' path).getLastD []
      let fallback_name := replaceSub (str "_") (str " ")
        (replaceSub (str ".html") (str "") last)
      ⟨full, if text.isEmpty then fallback_name else text⟩ ::
        searchPass u base rest (full :: seen)

/-- Search-results extraction over a parsed page. -/
def get_car_links_from_search_page (u : UrlLib) (page : Page) (base : PyStr) :
    List ModelLink :=
  searchPass u base page.anchors []

/-- Denylist `_SKIP_IMAGE_PATTERNS` for image sources and alt texts. -/
def SKIP_IMAGE_PATTERNS : List PyStr :=
  [str "logo", str "icon", str "banner", str "advert", str "button",
   str "flag", str "pixel", str "tracking", str "spacer", str "blank",
   str "avatar", str "favicon", str "sprite", str "social",
   str "facebook", str "twitter", str "instagram", str "youtube",
   str "cloudflare", str "captcha", str "recaptcha", str "widget"]

/-- Python `s.replace("_", "").replace("-", "")`. -/
def delUnderscoreDash (s : PyStr) : PyStr :=
  s.filter fun c => !(c == '_') && !(c == '-')

/-- Filtering and relevance scoring of one `img` element inside
`_extract_car_image_url`; `none` when the element is skipped or scores
zero, otherwise the score and the resolved URL. -/
def scoreImg (u : UrlLib) (base make_lower model_lower : PyStr)
    (img : ImgTag) : Option (Nat × PyStr) :=
  let src := pyStrip img.src
  if src.isEmpty then none
  else
    let src_lower := pyLower src
    let alt := pyLower img.alt
    let full := u.urljoin base src
    if !([str ".jpg", str ".jpeg", str ".png", str ".webp"].any
        fun e => containsSub e src_lower) then none
    else if SKIP_IMAGE_PATTERNS.any (fun p => containsSub p src_lower) then none
    else if SKIP_IMAGE_PATTERNS.any (fun p => containsSub p alt) then none
    else if pyIsDigit img.width && pyToNat img.width < 80 then none
    else if pyIsDigit img.height && pyToNat img.height < 80 then none
    else
      let score :=
        (if containsSub make_lower alt then 10 else 0)
        + (if containsSub model_lower (delSpaces alt) then 10 else 0)
        + (if containsSub make_lower src_lower then 5 else 0)
        + (if containsSub model_lower (delUnderscoreDash src_lower) then 5 else 0)
        + (if [str "/pic/", str "/img/", str "/photo/", str "/car/",
               str "/image/"].any (fun p => containsSub p src_lower)
           then 5 else 0)
        + (if pyIsDigit img.width && 300 ≤ pyToNat img.width then 3 else 0)
        + (if pyIsDigit img.height && 200 ≤ pyToNat img.height then 3 else 0)
        + (if [str "car", str "auto", str "photo", str "vehicle",
               str "coupe", str "sedan"].any (fun k => containsSub k alt)
           then 3 else 0)
      if 0 < score then some (score, full) else none

/-- First candidate of maximal score: the head of the stable sort by
descending score that `_extract_car_image_url` performs. -/
def bestCandidate : List (Nat × PyStr) → Option (Nat × PyStr)
  | [] => none
  | c :: rest =>
    match bestCandidate rest with
    | none => some c
    | some b => if c.1 < b.1 then some b else some c

/-- Photo selection `_extract_car_image_url`: score every image element
and return the URL of the first highest-scoring positive candidate. -/
def extract_car_image_url (u : UrlLib) (page : Page)
    (base make model : PyStr) : Option PyStr :=
  (bestCandidate (page.imgs.filterMap
    (scoreImg u base (pyLower make) (delSpaces (pyLower model))))).map (·.2)

/-- Python dictionary assignment `d[k] = v` on an association list:
overwrite in place if the key exists, else append. -/
def dictSet (d : SpecMap) (k v : PyStr) : SpecMap :=
  if d.any (fun kv => kv.1 == k) then
    d.map fun kv => if kv.1 == k then (kv.1, v) else kv
  else d ++ [(k, v)]

/-- The local `add(k, v)` helper of `parse_specs_from_car_page`: strip,
collapse newlines, re-strip, and store the pair unless empty or noise. -/
def addSpec (specs : SpecMap) (k v : PyStr) : SpecMap :=
  let k := pyStrip (replaceChar '\n' ' ' (pyStrip k))
  let v := pyStrip (replaceChar '\n' ' ' (pyStrip v))
  if !k.isEmpty && !v.isEmpty && !is_noise k && !is_noise v then
    dictSet specs k v
  else specs

/-- The table walk of `parse_specs_from_car_page`. -/
def addTable (specs : SpecMap) (rows : List TableRow) : SpecMap :=
  rows.foldl
    (fun sp row =>
      match row.cells with
      | c0 :: c1 :: _ => addSpec sp c0 c1
      | [c0] =>
        let t := pyStrip c0
        let (key, found, val) := partitionChar ':' t
        if found then addSpec sp key val else sp
      | [] => sp)
    specs

/-- The definition-list walk of `parse_specs_from_car_page`. -/
def addDl (specs : SpecMap) (dl : DefList) : SpecMap :=
  (dl.dts.zip dl.dds).foldl (fun sp p => addSpec sp p.1 p.2) specs

/-- The label/value sibling walk of `parse_specs_from_car_page`. -/
def addLabelPair (specs : SpecMap) (p : LabelPair) : SpecMap :=
  match p.nextText with
  | none => specs
  | some nxt =>
    let label := pyStrip p.label
    if !label.isEmpty && label.length < 100 then addSpec specs label nxt
    else specs

/-- Display-name refinement from the page title in
`parse_specs_from_car_page`. -/
def titleName (make model : PyStr) (title : Option PyStr) : PyStr :=
  let full_name := make ++ str " " ++ model
  match title with
  | none => full_name
  | some t0 =>
    if t0.isEmpty then full_name
    else
      let t := pyStrip t0
      if containsSub (pyLower make) (pyLower t) && t.length < 200 then
        let cut := pyStrip (takeBeforeChar '-' (takeBeforeChar '|' t))
        if cut.isEmpty then full_name else cut
      else full_name

/-- Specification and photo extraction `parse_specs_from_car_page`. -/
def parse_specs_from_car_page (u : UrlLib) (page : Page)
    (make model page_url : PyStr) : CarSpecs :=
  let image_url := extract_car_image_url u page page_url make model
  let specs := page.tables.foldl addTable []
  let specs := page.dls.foldl addDl specs
  let specs := page.labelPairs.foldl addLabelPair specs
  { make := make, model := model,
    full_name := titleName make model page.title,
    specs := specs, image_url := image_url }

/-- Match test of the candidate loop in `find_model_by_name`: non-empty
query and the lowered query contained in the lowered candidate name,
either directly or with all spaces removed from both. -/
def candMatches (model_lower : PyStr) (m : ModelLink) : Bool :=
  let name := pyLower m.name
  !model_lower.isEmpty &&
    (containsSub model_lower name ||
     containsSub (delSpaces model_lower) (delSpaces name))

/-- Candidate selection of `find_model_by_name` when the extracted list is
non-empty: first candidate passing `candMatches`, else the first candidate. -/
def selectCandidate (model_lower : PyStr) : List ModelLink → Option ModelLink
  | [] => none
  | m0 :: rest =>
    match (m0 :: rest).find? (candMatches model_lower) with
    | some m => some m
    | none => some m0

end CatalogParser

/-- Observable effects of one pipeline invocation, recorded in order:
network GET attempts, headless-browser fetches, fallback knowledge-base
lookups, and the final rendering call. -/
inductive Event where
  | browserFetch (url : PyStr)
  | netGet (url : PyStr)
  | kbLookup (make model : PyStr)
  | render (make model : PyStr)
deriving DecidableEq, Repr

/-- Outcome of one `session.get` attempt: a raised `RequestException`, or
a response with a status code and a parsed body. -/
inductive NetOutcome where
  | exc
  | resp (status : Nat) (page : Page)
deriving DecidableEq, Repr

/-- Oracle environment for all fetch effects: configuration, browser
availability, the result of a browser fetch per URL, and the result of
the i-th direct GET attempt per URL. -/
structure FetchEnv where
  baseUrl : PyStr
  retries : Nat
  playwrightOk : Bool
  browser : PyStr → Option Page
  net : PyStr → Nat → NetOutcome

namespace CatalogParser

/-- The slow fetch path `fetch_html_with_browser` of
`src/browser_fetcher.py`: when Playwright is unavailable return absence
without any browser work; otherwise the whole browser session (home-page
visit, waits, navigation, content read, any exception) is the oracle call,
which yields the rendered document or absence.  All failure modes are
caught inside the function, so its result type is an `Option`, never an
exception. -/
def fetch_html_with_browser (env : FetchEnv) (url : PyStr) :
    Option Page × List Event :=
  if env.playwrightOk then (env.browser url, [Event.browserFetch url])
  else (none, [])

/-- The retry loop of `_get_url`, attempt counter `i` and remaining
attempts: a 403 response switches to the browser path at once; any raised
request exception, and any status of 400 or above (which
`raise_for_status` turns into a caught exception), moves to the next
attempt; exhausting the attempts falls back to the browser path. -/
def getUrlLoop (env : FetchEnv) (url : PyStr) :
    Nat → Nat → Option Page × List Event
  | _, 0 => fetch_html_with_browser env url
  | i, rem + 1 =>
    match env.net url i with
    | .exc =>
      let r := getUrlLoop env url (i + 1) rem
      (r.1, Event.netGet url :: r.2)
    | .resp status page =>
      if status == 403 then
        let r := fetch_html_with_browser env url
        (r.1, Event.netGet url :: r.2)
      else if 400 ≤ status then
        let r := getUrlLoop env url (i + 1) rem
        (r.1, Event.netGet url :: r.2)
      else (some page, [Event.netGet url])

/-- The fast fetch path `_get_url` of `src/catalog_parser.py`. -/
def get_url (env : FetchEnv) (url : PyStr) : Option Page × List Event :=
  getUrlLoop env url 1 env.retries

/-- Public fetch `fetch_models_for_make`: browser-fetch the make listing
page and extract model links; an absent page yields the empty list. -/
def fetch_models_for_make (env : FetchEnv) (u : UrlLib) (make : PyStr) :
    List ModelLink × List Event :=
  let url := get_make_url env.baseUrl make
  let r := fetch_html_with_browser env url
  match r.1 with
  | none => ([], r.2)
  | some page => (get_models_from_make_page u page url make, r.2)

/-- Public fetch `fetch_car_links_via_search`. -/
def fetch_car_links_via_search (env : FetchEnv) (u : UrlLib)
    (make model : PyStr) : List ModelLink × List Event :=
  let query := pyStrip (make ++ str " " ++ model)
  let url := get_search_url env.baseUrl query
  let r := fetch_html_with_browser env url
  match r.1 with
  | none => ([], r.2)
  | some page => (get_car_links_from_search_page u page url, r.2)

/-- Public fetch `fetch_car_specs`: browser first, then the direct-GET
path, then parse; absence of both yields absence. -/
def fetch_car_specs (env : FetchEnv) (u : UrlLib)
    (make model car_page_url : PyStr) : Option CarSpecs × List Event :=
  let r1 := fetch_html_with_browser env car_page_url
  match r1.1 with
  | some page =>
    (some (parse_specs_from_car_page u page make model car_page_url), r1.2)
  | none =>
    let r2 := get_url env car_page_url
    match r2.1 with
    | none => (none, r1.2 ++ r2.2)
    | some page =>
      (some (parse_specs_from_car_page u page make model car_page_url),
       r1.2 ++ r2.2)

/-- Python `a or b` on strings: `b` when `a` is empty. -/
def strOr (a b : PyStr) : PyStr := if a.isEmpty then b else a

/-- Resolution orchestrator `find_model_by_name`: make page, then site
search, then the static `KNOWN_CAR_URLS` table. -/
def find_model_by_name (env : FetchEnv) (u : UrlLib)
    (make model_query : PyStr) : Option ModelLink × List Event :=
  let make_lower := normalize_make make
  let model_lower := pyNorm model_query
  let r1 := fetch_models_for_make env u make
  let (models, evs) :=
    if r1.1.isEmpty && !model_query.isEmpty then
      let r2 := fetch_car_links_via_search env u make model_query
      (r2.1, r1.2 ++ r2.2)
    else (r1.1, r1.2)
  match selectCandidate model_lower models with
  | some m => (some m, evs)
  | none =>
    match (if model_lower.isEmpty then none
           else KNOWN_CAR_URLS.find? fun e =>
             e.1.1 == make_lower && e.1.2 == model_lower) with
    | some e => (some ⟨e.2, strOr model_query (str "Unknown")⟩, evs)
    | none =>
      match KNOWN_CAR_URLS.find? (fun e =>
          e.1.1 == make_lower &&
          (model_lower.isEmpty || containsSub e.1.2 model_lower
            || containsSub model_lower e.1.2)) with
      | some e => (some ⟨e.2, strOr model_query e.1.2⟩, evs)
      | none => (none, evs)

end CatalogParser

/-- The only validation failure `run` raises: empty make after trimming. -/
inductive RunError where
  | emptyBrand
deriving DecidableEq, Repr

namespace Main

open CatalogParser

/-- Construction of the demo `CarSpecs` fallback in `run`. -/
def mkDemoCarSpecs (brand model : PyStr) : CarSpecs :=
  { make := brand, model := model,
    full_name := brand ++ str " " ++ model,
    specs := get_demo_specs brand model, image_url := none }

/-- The `safe_model` filename sanitization in `run`. -/
def sanitizeModel (m : PyStr) : PyStr :=
  replaceChar '/' '_' (replaceChar ' ' '_' m)

/-- The output path computation in `run`: the explicit path if given,
else the default under the output directory. -/
def outPath (outDir : PyStr) (output : Option PyStr) (cs : CarSpecs) : PyStr :=
  match output with
  | some p => p
  | none =>
    outDir ++ str "/" ++ cs.make ++ str "_" ++ sanitizeModel cs.model
      ++ str ".png"

/-- Tail of `run`: compute the output path and hand the specification to
the renderer (recorded as a render event; pixel layout is out of scope). -/
def finishRun (outDir : PyStr) (output : Option PyStr) (cs : CarSpecs)
    (evs : List Event) : Except RunError (CarSpecs × PyStr) × List Event :=
  (.ok (cs, outPath outDir output cs),
   evs ++ [Event.render cs.make cs.model])

/-- The make-only fallback tail of `run`: hardcoded fallback model name,
then a demo specification built from the knowledge base. -/
def noModelFallback (outDir : PyStr) (output : Option PyStr) (brand : PyStr)
    (evs : List Event) : Except RunError (CarSpecs × PyStr) × List Event :=
  let fallback_model :=
    if pyLower brand == str "audi" then str "TT RS" else str "Sport"
  finishRun outDir output (mkDemoCarSpecs brand fallback_model)
    (evs ++ [Event.kbLookup brand fallback_model])

/-- Top-level orchestrator `run` of `main.py`.  The result carries the
specification handed to the renderer together with the output path, or
the validation error; the second component is the ordered effect trace. -/
def run (env : FetchEnv) (u : UrlLib) (outDir : PyStr) (brandIn : PyStr)
    (modelIn : Option PyStr) (output : Option PyStr) :
    Except RunError (CarSpecs × PyStr) × List Event :=
  let brand := pyStrip brandIn
  if brand.isEmpty then (.error .emptyBrand, [])
  else
    match (match modelIn with
           | some m => if m.isEmpty then none else some m
           | none => none) with
    | some model =>
      let r1 := find_model_by_name env u brand model
      match r1.1 with
      | some link =>
        let r2 := fetch_car_specs env u brand model link.url
        match r2.1 with
        | some cs0 =>
          if cs0.specs.isEmpty then
            finishRun outDir output
              { cs0 with specs := get_demo_specs brand model }
              (r1.2 ++ r2.2 ++ [Event.kbLookup brand model])
          else finishRun outDir output cs0 (r1.2 ++ r2.2)
        | none =>
          finishRun outDir output (mkDemoCarSpecs brand model)
            (r1.2 ++ r2.2 ++ [Event.kbLookup brand model])
      | none =>
        finishRun outDir output (mkDemoCarSpecs brand model)
          (r1.2 ++ [Event.kbLookup brand model])
    | none =>
      let r1 := fetch_models_for_make env u brand
      match r1.1 with
      | first :: _ =>
        let r2 := fetch_car_specs env u brand first.name first.url
        match r2.1 with
        | some cs =>
          if cs.specs.isEmpty then
            noModelFallback outDir output brand (r1.2 ++ r2.2)
          else finishRun outDir output cs (r1.2 ++ r2.2)
        | none => noModelFallback outDir output brand (r1.2 ++ r2.2)
      | [] => noModelFallback outDir output brand r1.2

end Main

namespace ImageFinder

/-- A decoded PIL image: only its pixel dimensions matter to the code. -/
structure PilImage where
  width : Nat
  height : Nat
deriving DecidableEq, Repr

/-- Minimum accepted image width, `_MIN_W`. -/
def MIN_W : Nat := 300

/-- Minimum accepted image height, `_MIN_H`. -/
def MIN_H : Nat := 180

/-- Oracle environment for `src/image_finder.py`: the decoded image a
download of each URL would produce (absence covering any request or
decode exception), the candidate URL lists the two search backends would
yield (absence covering a failed search request or missing token), and
the URL a generation request would return (absence covering a missing
key, missing package, or API failure). -/
structure ImageEnv where
  net : PyStr → Option PilImage
  bingUrls : Option (List PyStr)
  ddgResults : Option (List (Option PyStr))
  dalleUrl : Option PyStr

/-- Download and validation `download_image`: fetch and decode the URL,
then discard images below the minimum size; every exception is caught and
becomes absence. -/
def download_image (env : ImageEnv) (url : PyStr) : Option PilImage :=
  match env.net url with
  | none => none
  | some img =>
    if img.width < MIN_W || img.height < MIN_H then none else some img

/-- Step 1, `from_catalog_url`: download the catalog-provided photo URL
when present. -/
def from_catalog_url (env : ImageEnv) (image_url : Option PyStr) :
    Option PilImage :=
  match image_url with
  | none => none
  | some u => download_image env u

/-- The candidate loop of `from_bing_search`: download each extracted URL
until one passes validation (with the redundant re-check of the width). -/
def bingLoop (env : ImageEnv) : List PyStr → Option PilImage
  | [] => none
  | u :: rest =>
    match download_image env u with
    | some img => if MIN_W ≤ img.width then some img else bingLoop env rest
    | none => bingLoop env rest

/-- Step 2, `from_bing_search`: the search request and URL extraction are
the oracle; then try each candidate in order. -/
def from_bing_search (env : ImageEnv) : Option PilImage :=
  match env.bingUrls with
  | none => none
  | some urls => bingLoop env urls

/-- The result loop of `from_duckduckgo_search` over the first five
results; a result without an image field is skipped. -/
def ddgLoop (env : ImageEnv) : List (Option PyStr) → Option PilImage
  | [] => none
  | r :: rest =>
    match r with
    | some img_url =>
      match download_image env img_url with
      | some img => if MIN_W ≤ img.width then some img else ddgLoop env rest
      | none => ddgLoop env rest
    | none => ddgLoop env rest

/-- Step 3, `from_duckduckgo_search`: token handshake and structured query
are the oracle; then try the first five results in order. -/
def from_duckduckgo_search (env : ImageEnv) : Option PilImage :=
  match env.ddgResults with
  | none => none
  | some results => ddgLoop env (results.take 5)

/-- Step 4, `from_openai_dalle`: the generation request is the oracle;
then download and validate the returned URL. -/
def from_openai_dalle (env : ImageEnv) : Option PilImage :=
  match env.dalleUrl with
  | none => none
  | some u => download_image env u

/-- The four image sources, in waterfall order. -/
inductive ImgStep where
  | catalog
  | bing
  | ddg
  | dalle
deriving DecidableEq, Repr

/-- Waterfall `find_car_image`: catalog URL, then Bing, then DuckDuckGo,
then generation; the second component records which sources were invoked,
in order. -/
def find_car_image (env : ImageEnv) (catalog_image_url : Option PyStr) :
    Option PilImage × List ImgStep :=
  match from_catalog_url env catalog_image_url with
  | some img => (some img, [ImgStep.catalog])
  | none =>
    match from_bing_search env with
    | some img => (some img, [ImgStep.catalog, ImgStep.bing])
    | none =>
      match from_duckduckgo_search env with
      | some img => (some img, [ImgStep.catalog, ImgStep.bing, ImgStep.ddg])
      | none =>
        match from_openai_dalle env with
        | some img =>
          (some img, [ImgStep.catalog, ImgStep.bing, ImgStep.ddg, ImgStep.dalle])
        | none =>
          (none, [ImgStep.catalog, ImgStep.bing, ImgStep.ddg, ImgStep.dalle])

end ImageFinder

namespace PosterGen

/-- Noise classifier `_is_noise` of `src/poster_generator.py`: same shape
as the parser variant but with a 120-character ceiling and its own list. -/
def is_noise (text : PyStr) : Bool :=
  let t := pyStrip (pyLower text)
  if t.isEmpty || 120 < t.length then true
  else POSTER_CSS_NOISE.any fun p => containsSub p t

end PosterGen

/-- The matching relation as claim C4 words it (spec side, for comparison
with the code): the candidate display name contains the query as a
substring in either direction, case-insensitively and ignoring spaces. -/
def specEitherDirMatch (q name : PyStr) : Bool :=
  let qn := delSpaces (pyLower q)
  let nn := delSpaces (pyLower name)
  containsSub qn nn || containsSub nn qn

/-- A failed direct-GET attempt as `_get_url` treats it: a raised request
exception, or an error status (400 and above) other than 403, which
`raise_for_status` turns into a caught exception. -/
def netFails (o : NetOutcome) : Bool :=
  match o with
  | .exc => true
  | .resp s _ => decide (400 ≤ s) && !(s == 403)

/-- The vehicle-detail path test of `get_models_from_make_page`: the
lowered resolved path contains "/car/" and ".html". -/
def carPathCond (path : PyStr) : Bool :=
  containsSub (str "/car/") path && containsSub (str ".html") path

/-- The make-listing path test of `get_models_from_make_page`: the
lowered resolved path lies under the make's listing path and has at
least three non-empty path components. -/
def makePathCond (mk path : PyStr) : Bool :=
  containsSub (str "/make/" ++ mk ++ str "/") path &&
    3 ≤ ((splitOnChar '/' path).filter fun p => !p.isEmpty).length

/-- The candidate stream accepted by the anchor filters of
`get_models_from_make_page`, with no de-duplication at all (claim side):
the reference list against which the keep-first-occurrence behaviour of
the two de-duplication passes is stated.  Its filter conditions are
those of `modelsPass1` verbatim, minus the `seen` set. -/
def rawModels (u : UrlLib) (base mk : PyStr) : List Anchor → List ModelLink
  | [] => []
  | a :: rest =>
    let text := pyStrip a.text
    if text.isEmpty || 150 < text.length then rawModels u base mk rest
    else
      let full := u.urljoin base (pyStrip a.href)
      let path := pyLower (u.urlpath full)
      if containsSub (str "/car/") path && containsSub (str ".html") path then
        ⟨full, text⟩ :: rawModels u base mk rest
      else if containsSub (str "/make/" ++ mk ++ str "/") path then
        if 3 ≤ ((splitOnChar '/' path).filter fun p => !p.isEmpty).length then
          ⟨full, text⟩ :: rawModels u base mk rest
        else rawModels u base mk rest
      else rawModels u base mk rest

/-- De-duplication by resolved URL keeping the first occurrence (claim
side): keep the head and delete every later candidate with the same URL. -/
def keepFirstByUrl : List ModelLink → List ModelLink
  | [] => []
  | c :: l => c :: keepFirstByUrl (l.filter fun x => !(x.url == c.url))
termination_by l => l.length
decreasing_by
  simp only [List.length_cons]
  exact Nat.lt_succ_of_le (List.length_filter_le _ _)

/-- De-duplication by stripped display name keeping the first occurrence
(claim side): keep the head when its stripped name has length at least
two and delete every later candidate with the same stripped name; drop
short-named candidates without reserving their name, as the second pass
of `get_models_from_make_page` does. -/
def keepFirstByName : List ModelLink → List ModelLink
  | [] => []
  | m :: l =>
    if 2 ≤ (pyStrip m.name).length then
      m :: keepFirstByName
        (l.filter fun x => !(pyStrip x.name == pyStrip m.name))
    else keepFirstByName l
termination_by l => l.length
decreasing_by
  · simp only [List.length_cons]
    exact Nat.lt_succ_of_le (List.length_filter_le _ _)
  · simp

/-! Theorems. -/

theorem findFirstAppend {α} (p : α → Bool) (pre post : List α) (a : α)
    (hpre : ∀ x ∈ pre, p x = false) (ha : p a = true) :
    List.find? p (pre ++ a :: post) = some a := by
  induction pre with
  | nil => simp [List.find?_cons, ha]
  | cons x xs ih =>
    have hx : p x = false := hpre x (by simp)
    simp only [List.cons_append, List.find?_cons, hx]
    exact ih fun y hy => hpre y (by simp [hy])

theorem find?_exact_of_mem {ν : Type} (l : List ((PyStr × PyStr) × ν))
    (hnd : (l.map Prod.fst).Nodup) (mk md : PyStr) (e : (PyStr × PyStr) × ν)
    (he : e ∈ l) (hk : e.1 = (mk, md)) :
    l.find? (fun x => x.1.1 == mk && x.1.2 == md) = some e := by
  induction l with
  | nil => cases he
  | cons a rest ih =>
    rcases List.mem_cons.mp he with rfl | hmem
    · have h1 : e.1.1 = mk := by rw [hk]
      have h2 : e.1.2 = md := by rw [hk]
      simp [List.find?_cons, h1, h2]
    · have hne : (fun x => x.1.1 == mk && x.1.2 == md) a = false := by
        by_contra hcon
        rw [Bool.not_eq_false] at hcon
        simp only [Bool.and_eq_true, beq_iff_eq] at hcon
        have hak : a.1 = (mk, md) := Prod.ext hcon.1 hcon.2
        have hmm : a.1 ∈ rest.map Prod.fst := by
          rw [hak, ← hk]
          exact List.mem_map_of_mem Prod.fst hmem
        exact (List.nodup_cons.mp hnd).1 hmm
      simp only [List.find?_cons, hne]
      exact ih (List.nodup_cons.mp hnd).2 hmem

/-- C7: the two noise classifiers are pure deterministic functions of the
input text; every text whose trimmed form exceeds the length ceiling (150
characters in the parser, 120 in the renderer) is classified as noise,
and every text that is empty after trimming is classified as noise. -/
theorem c7_noise_deterministic_and_ceiling (t : PyStr) :
    (CatalogParser.is_noise t = CatalogParser.is_noise t ∧
     PosterGen.is_noise t = PosterGen.is_noise t) ∧
    (150 < (pyStrip t).length → CatalogParser.is_noise t = true) ∧
    (120 < (pyStrip t).length → PosterGen.is_noise t = true) ∧
    (pyStrip t = [] →
      CatalogParser.is_noise t = true ∧ PosterGen.is_noise t = true) := by
  have hlen : (pyStrip (pyLower t)).length = (pyStrip t).length := by
    rw [pyStrip_pyLower]
    exact List.length_map _ _
  have hemp : pyStrip t = [] → pyStrip (pyLower t) = [] := by
    rw [pyStrip_pyLower]
    intro h
    rw [h]
    rfl
  refine ⟨⟨rfl, rfl⟩, ?_, ?_, ?_⟩
  · intro h
    simp only [CatalogParser.is_noise]
    rw [if_pos]
    simp [hlen]
    omega
  · intro h
    simp only [PosterGen.is_noise]
    rw [if_pos]
    simp [hlen]
    omega
  · intro h
    have h2 := hemp h
    constructor
    · simp only [CatalogParser.is_noise]
      rw [if_pos]
      simp [h2]
    · simp only [PosterGen.is_noise]
      rw [if_pos]
      simp [h2]

set_option maxRecDepth 20000 in
/-- Witness for C7 at concrete inputs: a 151-character text is noise for
the parser, a 121-character text is noise for the renderer, and a
whitespace-only text is noise for both. -/
theorem c7_noise_witness :
    CatalogParser.is_noise (List.replicate 151 'a') = true ∧
    PosterGen.is_noise (List.replicate 121 'b') = true ∧
    (CatalogParser.is_noise (str "   ") = true ∧
     PosterGen.is_noise (str "   ") = true) :=
  ⟨(c7_noise_deterministic_and_ceiling (List.replicate 151 'a')).2.1
      (by decide),
   (c7_noise_deterministic_and_ceiling (List.replicate 121 'b')).2.2.1
      (by decide),
   (c7_noise_deterministic_and_ceiling (str "   ")).2.2.2 (by decide)⟩

theorem gds_norm_exact (mk md : PyStr) (e : (PyStr × PyStr) × SpecMap)
    (hf : DEMO_SPECS_DB.find? (kbExactP mk md) = some e) :
    get_demo_specs_norm mk md = e.2 := by
  unfold get_demo_specs_norm
  rw [hf]

theorem gds_norm_model (mk md : PyStr) (e : (PyStr × PyStr) × SpecMap)
    (h1 : DEMO_SPECS_DB.find? (kbExactP mk md) = none)
    (hf : DEMO_SPECS_DB.find? (kbModelP mk md) = some e) :
    get_demo_specs_norm mk md = e.2 := by
  unfold get_demo_specs_norm
  rw [h1, hf]

theorem gds_norm_make (mk md : PyStr) (e : (PyStr × PyStr) × SpecMap)
    (h1 : DEMO_SPECS_DB.find? (kbExactP mk md) = none)
    (h2 : DEMO_SPECS_DB.find? (kbModelP mk md) = none)
    (hf : DEMO_SPECS_DB.find? (kbMakeP mk) = some e) :
    get_demo_specs_norm mk md = e.2 := by
  unfold get_demo_specs_norm
  rw [h1, h2, hf]

theorem gds_norm_default (mk md : PyStr)
    (h1 : DEMO_SPECS_DB.find? (kbExactP mk md) = none)
    (h2 : DEMO_SPECS_DB.find? (kbModelP mk md) = none)
    (h3 : DEMO_SPECS_DB.find? (kbMakeP mk) = none) :
    get_demo_specs_norm mk md = DEFAULT_DEMO := by
  unfold get_demo_specs_norm
  rw [h1, h2, h3]

theorem find?_none_of_all_false {α} (p : α → Bool) (l : List α)
    (h : ∀ x ∈ l, p x = false) : l.find? p = none :=
  List.find?_eq_none.mpr fun x hx => by simp [h x hx]

theorem kb_exact_entry (make model : PyStr) (e : (PyStr × PyStr) × SpecMap)
    (he : e ∈ DEMO_SPECS_DB) (hk : e.1 = (pyNorm make, pyNorm model)) :
    get_demo_specs make model = e.2 := by
  have hnd : (DEMO_SPECS_DB.map Prod.fst).Nodup := by decide
  have hf := find?_exact_of_mem DEMO_SPECS_DB hnd
    (pyNorm make) (pyNorm model) e he hk
  exact gds_norm_exact _ _ e hf

theorem kb_values_nonempty :
    (∀ e ∈ DEMO_SPECS_DB, e.2 ≠ []) ∧ DEFAULT_DEMO ≠ [] := by
  constructor
  · decide
  · decide

/-- C2: for every pair of input strings, the fallback knowledge-base
lookup returns a non-empty attributes mapping, chosen in this order: the
entry under the exact normalized key; else the first entry with the same
normalized make and a substring match in either direction on the model;
else the first entry with a substring match in either direction on the
make; else the fixed generic default mapping. -/
theorem c2_kb_lookup_total_and_ordered (make model : PyStr) :
    get_demo_specs make model ≠ [] ∧
    (∀ e ∈ DEMO_SPECS_DB, e.1 = (pyNorm make, pyNorm model) →
      get_demo_specs make model = e.2) ∧
    ((∀ x ∈ DEMO_SPECS_DB, kbExactP (pyNorm make) (pyNorm model) x = false) →
      ∀ pre e post, DEMO_SPECS_DB = pre ++ e :: post →
        (∀ x ∈ pre, kbModelP (pyNorm make) (pyNorm model) x = false) →
        kbModelP (pyNorm make) (pyNorm model) e = true →
        get_demo_specs make model = e.2) ∧
    ((∀ x ∈ DEMO_SPECS_DB, kbExactP (pyNorm make) (pyNorm model) x = false) →
      (∀ x ∈ DEMO_SPECS_DB, kbModelP (pyNorm make) (pyNorm model) x = false) →
      ∀ pre e post, DEMO_SPECS_DB = pre ++ e :: post →
        (∀ x ∈ pre, kbMakeP (pyNorm make) x = false) →
        kbMakeP (pyNorm make) e = true →
        get_demo_specs make model = e.2) ∧
    ((∀ x ∈ DEMO_SPECS_DB, kbExactP (pyNorm make) (pyNorm model) x = false) →
      (∀ x ∈ DEMO_SPECS_DB, kbModelP (pyNorm make) (pyNorm model) x = false) →
      (∀ x ∈ DEMO_SPECS_DB, kbMakeP (pyNorm make) x = false) →
      get_demo_specs make model = DEFAULT_DEMO) := by
  refine ⟨?_, ?_, ?_, ?_, ?_⟩
  · unfold get_demo_specs get_demo_specs_norm
    rcases h1 : DEMO_SPECS_DB.find? (kbExactP (pyNorm make) (pyNorm model))
      with _ | e1
    · rcases h2 : DEMO_SPECS_DB.find? (kbModelP (pyNorm make) (pyNorm model))
        with _ | e2
      · rcases h3 : DEMO_SPECS_DB.find? (kbMakeP (pyNorm make)) with _ | e3
        · exact kb_values_nonempty.2
        · exact kb_values_nonempty.1 e3 (List.mem_of_find?_eq_some h3)
      · exact kb_values_nonempty.1 e2 (List.mem_of_find?_eq_some h2)
    · exact kb_values_nonempty.1 e1 (List.mem_of_find?_eq_some h1)
  · exact fun e he hk => kb_exact_entry make model e he hk
  · intro hno pre e post hsplit hpre he
    have h1 := find?_none_of_all_false _ _ hno
    have hf : DEMO_SPECS_DB.find? (kbModelP (pyNorm make) (pyNorm model))
        = some e := by
      rw [hsplit]
      exact findFirstAppend _ pre post e hpre he
    exact gds_norm_model _ _ e h1 hf
  · intro hno1 hno2 pre e post hsplit hpre he
    have h1 := find?_none_of_all_false _ _ hno1
    have h2 := find?_none_of_all_false _ _ hno2
    have hf : DEMO_SPECS_DB.find? (kbMakeP (pyNorm make)) = some e := by
      rw [hsplit]
      exact findFirstAppend _ pre post e hpre he
    exact gds_norm_make _ _ e h1 h2 hf
  · intro hno1 hno2 hno3
    exact gds_norm_default _ _ (find?_none_of_all_false _ _ hno1)
      (find?_none_of_all_false _ _ hno2) (find?_none_of_all_false _ _ hno3)

/-- Witness for C2: the exact branch for a normalized Audi TT RS query,
the same-make model-substring branch for a Porsche 911 query, and the
generic default (a non-empty mapping) for an unknown make and model. -/
theorem c2_kb_lookup_witness :
    get_demo_specs (str " AuDi ") (str "TT RS") =
      (DEMO_SPECS_DB.get ⟨0, by decide⟩).2 ∧
    get_demo_specs (str "Porsche") (str " 911 ") =
      (DEMO_SPECS_DB.get ⟨2, by decide⟩).2 ∧
    get_demo_specs (str "zzz") (str "qqq") = DEFAULT_DEMO ∧
    get_demo_specs (str "zzz") (str "qqq") ≠ [] :=
  ⟨(c2_kb_lookup_total_and_ordered (str " AuDi ") (str "TT RS")).2.1
      (DEMO_SPECS_DB.get ⟨0, by decide⟩) (by decide) (by decide),
   (c2_kb_lookup_total_and_ordered (str "Porsche") (str " 911 ")).2.2.1
      (by decide) (DEMO_SPECS_DB.take 2) (DEMO_SPECS_DB.get ⟨2, by decide⟩)
      (DEMO_SPECS_DB.drop 3) (by decide) (by decide) (by decide),
   (c2_kb_lookup_total_and_ordered (str "zzz") (str "qqq")).2.2.2.2
      (by decide) (by decide) (by decide),
   (c2_kb_lookup_total_and_ordered (str "zzz") (str "qqq")).1⟩

/-- C8: the knowledge-base lookup is invariant under pre-normalizing the
query: lookup(make, model) equals lookup(trim(lower(make)),
trim(lower(model))) for all inputs, and any query whose normalized make
and model equal a stored key returns exactly the mapping stored under
that key. -/
theorem c8_kb_lookup_normalization (make model : PyStr) :
    get_demo_specs make model =
      get_demo_specs (pyStrip (pyLower make)) (pyStrip (pyLower model)) ∧
    (∀ e ∈ DEMO_SPECS_DB, e.1 = (pyNorm make, pyNorm model) →
      get_demo_specs make model = e.2) := by
  constructor
  · unfold get_demo_specs
    rw [pyNorm_strip_lower, pyNorm_strip_lower]
  · exact fun e he hk => kb_exact_entry make model e he hk

/-- Witness for C8: a query differing from the stored ("audi", "tt rs")
key only by casing and surrounding whitespace hits the stored entry, and
pre-normalizing the arguments does not change the result. -/
theorem c8_kb_lookup_witness :
    get_demo_specs (str " AuDi ") (str "  tt RS ") =
      get_demo_specs (pyStrip (pyLower (str " AuDi ")))
        (pyStrip (pyLower (str "  tt RS "))) ∧
    get_demo_specs (str " AuDi ") (str "  tt RS ") =
      (DEMO_SPECS_DB.get ⟨0, by decide⟩).2 :=
  ⟨(c8_kb_lookup_normalization (str " AuDi ") (str "  tt RS ")).1,
   (c8_kb_lookup_normalization (str " AuDi ") (str "  tt RS ")).2
      (DEMO_SPECS_DB.get ⟨0, by decide⟩) (by decide) (by decide)⟩

theorem selectCandidate_of_find?_some (q : PyStr) (l : List ModelLink)
    (m : ModelLink) (hl : l ≠ [])
    (hf : l.find? (CatalogParser.candMatches q) = some m) :
    CatalogParser.selectCandidate q l = some m := by
  cases l with
  | nil => exact absurd rfl hl
  | cons a rest =>
    simp only [CatalogParser.selectCandidate]
    rw [hf]

theorem selectCandidate_of_find?_none (q : PyStr) (a : ModelLink)
    (rest : List ModelLink)
    (hf : (a :: rest).find? (CatalogParser.candMatches q) = none) :
    CatalogParser.selectCandidate q (a :: rest) = some a := by
  simp only [CatalogParser.selectCandidate]
  rw [hf]

/-- C4 counterexample: with query "M3 Competition" (normalized to
"m3 competition") and extracted candidates X5 then M3, the code returns
the first candidate X5, although the second candidate M3 is an
either-direction substring match for the query in the claim's sense (its
name is contained in the query) and the first is not; the claim's
"substring match in either direction" therefore does not describe the
code, which only tests query-contained-in-name. -/
theorem c4_counterexample :
    pyNorm (str "M3 Competition") = str "m3 competition" ∧
    CatalogParser.selectCandidate (str "m3 competition")
      [⟨str "u1", str "X5"⟩, ⟨str "u2", str "M3"⟩] =
      some ⟨str "u1", str "X5"⟩ ∧
    specEitherDirMatch (str "m3 competition") (str "M3") = true ∧
    specEitherDirMatch (str "m3 competition") (str "X5") = false ∧
    (⟨str "u1", str "X5"⟩ : ModelLink) ≠ ⟨str "u2", str "M3"⟩ := by
  decide

/-- C4 (amended): when the extracted candidate list is non-empty,
candidate selection returns the first candidate whose lowered display
name contains the lowered query as a substring, either directly or after
removing all spaces from both sides (one direction only: query contained
in name); when no candidate matches, it returns the first candidate. -/
theorem c4_select_first_matching :
    (∀ (q : PyStr) (pre post : List ModelLink) (m : ModelLink),
      (∀ x ∈ pre, CatalogParser.candMatches q x = false) →
      CatalogParser.candMatches q m = true →
      CatalogParser.selectCandidate q (pre ++ m :: post) = some m) ∧
    (∀ (q : PyStr) (models : List ModelLink), models ≠ [] →
      (∀ x ∈ models, CatalogParser.candMatches q x = false) →
      CatalogParser.selectCandidate q models = models.head?) := by
  constructor
  · intro q pre post m hpre hm
    have hf : (pre ++ m :: post).find? (CatalogParser.candMatches q)
        = some m := findFirstAppend _ pre post m hpre hm
    exact selectCandidate_of_find?_some q _ m (by simp) hf
  · intro q models hne hall
    cases models with
    | nil => exact absurd rfl hne
    | cons a rest =>
      have hf : (a :: rest).find? (CatalogParser.candMatches q) = none :=
        find?_none_of_all_false _ _ hall
      rw [selectCandidate_of_find?_none q a rest hf]
      rfl

/-- Witness for C4 (amended) at concrete inputs: query "M3" (normalized
"m3") skips a non-matching X5 candidate and picks the matching
"BMW M3 Competition" candidate, and a query matching no candidate yields
the first candidate. -/
theorem c4_select_first_matching_witness :
    CatalogParser.selectCandidate (str "m3")
      [⟨str "u1", str "X5"⟩, ⟨str "u2", str "BMW M3 Competition"⟩] =
      some ⟨str "u2", str "BMW M3 Competition"⟩ ∧
    CatalogParser.selectCandidate (str "zzz")
      [⟨str "u1", str "X5"⟩, ⟨str "u2", str "BMW M3 Competition"⟩] =
      some ⟨str "u1", str "X5"⟩ :=
  ⟨c4_select_first_matching.1 (str "m3") [⟨str "u1", str "X5"⟩] []
      ⟨str "u2", str "BMW M3 Competition"⟩ (by decide) (by decide),
   by
    have h := c4_select_first_matching.2 (str "zzz")
      [⟨str "u1", str "X5"⟩, ⟨str "u2", str "BMW M3 Competition"⟩]
      (by decide) (by decide)
    simpa using h⟩

theorem download_image_valid (env : ImageFinder.ImageEnv) (url : PyStr)
    (img : ImageFinder.PilImage)
    (h : ImageFinder.download_image env url = some img) :
    ImageFinder.MIN_W ≤ img.width ∧ ImageFinder.MIN_H ≤ img.height := by
  unfold ImageFinder.download_image at h
  split at h
  · cases h
  · split at h
    · cases h
    · rename_i hc
      cases h
      simp only [Bool.or_eq_true, decide_eq_true_eq, not_or] at hc
      omega

theorem fromCatalog_valid (env : ImageFinder.ImageEnv) (cu : Option PyStr)
    (img : ImageFinder.PilImage)
    (h : ImageFinder.from_catalog_url env cu = some img) :
    ImageFinder.MIN_W ≤ img.width ∧ ImageFinder.MIN_H ≤ img.height := by
  unfold ImageFinder.from_catalog_url at h
  rcases cu with _ | u
  · cases h
  · exact download_image_valid env u img h

theorem bingLoop_valid (env : ImageFinder.ImageEnv) (urls : List PyStr)
    (img : ImageFinder.PilImage)
    (h : ImageFinder.bingLoop env urls = some img) :
    ImageFinder.MIN_W ≤ img.width ∧ ImageFinder.MIN_H ≤ img.height := by
  induction urls with
  | nil => cases h
  | cons u rest ih =>
    unfold ImageFinder.bingLoop at h
    split at h
    · rename_i i hd
      split at h
      · cases h
        exact download_image_valid env u img hd
      · exact ih h
    · exact ih h

theorem fromBing_valid (env : ImageFinder.ImageEnv)
    (img : ImageFinder.PilImage)
    (h : ImageFinder.from_bing_search env = some img) :
    ImageFinder.MIN_W ≤ img.width ∧ ImageFinder.MIN_H ≤ img.height := by
  unfold ImageFinder.from_bing_search at h
  rcases hb : env.bingUrls with _ | urls
  · rw [hb] at h
    cases h
  · rw [hb] at h
    exact bingLoop_valid env urls img h

theorem ddgLoop_valid (env : ImageFinder.ImageEnv)
    (results : List (Option PyStr)) (img : ImageFinder.PilImage)
    (h : ImageFinder.ddgLoop env results = some img) :
    ImageFinder.MIN_W ≤ img.width ∧ ImageFinder.MIN_H ≤ img.height := by
  induction results with
  | nil => cases h
  | cons r rest ih =>
    unfold ImageFinder.ddgLoop at h
    split at h
    · rename_i u
      split at h
      · rename_i i hd
        by_cases hw : ImageFinder.MIN_W ≤ i.width
        · rw [if_pos hw] at h
          cases h
          exact download_image_valid env u img hd
        · rw [if_neg hw] at h
          exact ih h
      · exact ih h
    · exact ih h

theorem fromDdg_valid (env : ImageFinder.ImageEnv)
    (img : ImageFinder.PilImage)
    (h : ImageFinder.from_duckduckgo_search env = some img) :
    ImageFinder.MIN_W ≤ img.width ∧ ImageFinder.MIN_H ≤ img.height := by
  unfold ImageFinder.from_duckduckgo_search at h
  rcases hb : env.ddgResults with _ | results
  · rw [hb] at h
    cases h
  · rw [hb] at h
    exact ddgLoop_valid env _ img h

theorem fromDalle_valid (env : ImageFinder.ImageEnv)
    (img : ImageFinder.PilImage)
    (h : ImageFinder.from_openai_dalle env = some img) :
    ImageFinder.MIN_W ≤ img.width ∧ ImageFinder.MIN_H ≤ img.height := by
  unfold ImageFinder.from_openai_dalle at h
  rcases hb : env.dalleUrl with _ | u
  · rw [hb] at h
    cases h
  · rw [hb] at h
    exact download_image_valid env u img h

/-- C5: the image waterfall tries its four sources strictly in the order
catalog URL, Bing, DuckDuckGo, AI generation: the invocation trace is
always a prefix of that order, a source that yields a validated image
stops the waterfall (later sources are not invoked), only when all four
yield nothing is absence returned (and then all four were invoked), and
any returned image satisfies the minimum-size validation. -/
theorem c5_image_waterfall (env : ImageFinder.ImageEnv)
    (cu : Option PyStr) :
    (ImageFinder.find_car_image env cu).2 <+:
      [ImageFinder.ImgStep.catalog, ImageFinder.ImgStep.bing,
       ImageFinder.ImgStep.ddg, ImageFinder.ImgStep.dalle] ∧
    (∀ img, ImageFinder.from_catalog_url env cu = some img →
      ImageFinder.find_car_image env cu =
        (some img, [ImageFinder.ImgStep.catalog])) ∧
    (ImageFinder.from_catalog_url env cu = none →
      ∀ img, ImageFinder.from_bing_search env = some img →
      ImageFinder.find_car_image env cu =
        (some img, [ImageFinder.ImgStep.catalog, ImageFinder.ImgStep.bing])) ∧
    (ImageFinder.from_catalog_url env cu = none →
      ImageFinder.from_bing_search env = none →
      ∀ img, ImageFinder.from_duckduckgo_search env = some img →
      ImageFinder.find_car_image env cu =
        (some img, [ImageFinder.ImgStep.catalog, ImageFinder.ImgStep.bing,
                    ImageFinder.ImgStep.ddg])) ∧
    (ImageFinder.from_catalog_url env cu = none →
      ImageFinder.from_bing_search env = none →
      ImageFinder.from_duckduckgo_search env = none →
      ImageFinder.find_car_image env cu =
        (ImageFinder.from_openai_dalle env,
         [ImageFinder.ImgStep.catalog, ImageFinder.ImgStep.bing,
          ImageFinder.ImgStep.ddg, ImageFinder.ImgStep.dalle])) ∧
    (∀ img, (ImageFinder.find_car_image env cu).1 = some img →
      ImageFinder.MIN_W ≤ img.width ∧ ImageFinder.MIN_H ≤ img.height)  := by
  unfold ImageFinder.find_car_image
  rcases h1 : ImageFinder.from_catalog_url env cu with _ | i1
  · rcases h2 : ImageFinder.from_bing_search env with _ | i2
    · rcases h3 : ImageFinder.from_duckduckgo_search env with _ | i3
      · rcases h4 : ImageFinder.from_openai_dalle env with _ | i4
        · refine ⟨by simp, ?_, ?_, ?_, ?_, ?_⟩
          · intro img h
            cases h
          · intro _ img h
            cases h
          · intro _ _ img h
            cases h
          · intro _ _ _
            rfl
          · intro img h
            have h5 : (none : Option ImageFinder.PilImage) = some img := h
            cases h5
        · refine ⟨by simp, ?_, ?_, ?_, ?_, ?_⟩
          · intro img h
            cases h
          · intro _ img h
            cases h
          · intro _ _ img h
            cases h
          · intro _ _ _
            rfl
          · intro img h
            have h5 : some i4 = some img := h
            cases h5
            exact fromDalle_valid env i4 h4
      · refine ⟨by simp, ?_, ?_, ?_, ?_, ?_⟩
        · intro img h
          cases h
        · intro _ img h
          cases h
        · intro _ _ img h
          have h5 : some i3 = some img := h
          cases h5
          rfl
        · intro _ _ h
          cases h
        · intro img h
          have h5 : some i3 = some img := h
          cases h5
          exact fromDdg_valid env i3 h3
    · refine ⟨by simp, ?_, ?_, ?_, ?_, ?_⟩
      · intro img h
        cases h
      · intro _ img h
        have h5 : some i2 = some img := h
        cases h5
        rfl
      · intro _ h
        cases h
      · intro _ h
        cases h
      · intro img h
        have h5 : some i2 = some img := h
        cases h5
        exact fromBing_valid env i2 h2
  · refine ⟨by simp, ?_, ?_, ?_, ?_, ?_⟩
    · intro img h
      have h5 : some i1 = some img := h
      cases h5
      rfl
    · intro h
      cases h
    · intro h
      cases h
    · intro h
      cases h
    · intro img h
      have h5 : some i1 = some img := h
      cases h5
      exact fromCatalog_valid env cu i1 h1

/-- Witness for C5 at concrete environments: a downloadable 400 by 250
catalog photo stops the waterfall after the first source, and an
environment where every source yields nothing returns absence after
invoking all four sources. -/
theorem c5_image_waterfall_witness :
    ImageFinder.find_car_image
      ⟨fun _ => some ⟨400, 250⟩, none, none, none⟩ (some (str "cat")) =
      (some ⟨400, 250⟩, [ImageFinder.ImgStep.catalog]) ∧
    ImageFinder.find_car_image
      ⟨fun _ => none, none, none, none⟩ (some (str "cat")) =
      (none, [ImageFinder.ImgStep.catalog, ImageFinder.ImgStep.bing,
              ImageFinder.ImgStep.ddg, ImageFinder.ImgStep.dalle]) :=
  ⟨(c5_image_waterfall ⟨fun _ => some ⟨400, 250⟩, none, none, none⟩
      (some (str "cat"))).2.1 ⟨400, 250⟩ (by decide),
   (c5_image_waterfall ⟨fun _ => none, none, none, none⟩
      (some (str "cat"))).2.2.2.2.1 (by decide) (by decide) (by decide)⟩

theorem getUrlLoop_all_fail (env : FetchEnv) (url : PyStr) :
    ∀ (rem i : Nat),
      (∀ j, i ≤ j → j < i + rem → netFails (env.net url j) = true) →
      (CatalogParser.getUrlLoop env url i rem).1 =
        (CatalogParser.fetch_html_with_browser env url).1 := by
  intro rem
  induction rem with
  | zero => intro i _; rfl
  | succ n ih =>
    intro i hfail
    have hi : netFails (env.net url i) = true := hfail i le_rfl (by omega)
    unfold CatalogParser.getUrlLoop
    rcases hn : env.net url i with _ | ⟨s, page⟩
    · exact ih (i + 1) fun j h1 h2 => hfail j (by omega) (by omega)
    · rw [hn] at hi
      simp only [netFails, Bool.and_eq_true, decide_eq_true_eq,
        Bool.not_eq_true'] at hi
      dsimp only
      rw [if_neg (by simp [hi.2]), if_pos (by simp [hi.1])]
      exact ih (i + 1) fun j h1 h2 => hfail j (by omega) (by omega)

theorem getUrlLoop_403 (env : FetchEnv) (url : PyStr) :
    ∀ (rem i k : Nat) (page : Page), i ≤ k → k < i + rem →
      (∀ j, i ≤ j → j < k → netFails (env.net url j) = true) →
      env.net url k = NetOutcome.resp 403 page →
      (CatalogParser.getUrlLoop env url i rem).1 =
        (CatalogParser.fetch_html_with_browser env url).1 := by
  intro rem
  induction rem with
  | zero => intro i k page h1 h2 _ _; omega
  | succ n ih =>
    intro i k page hik hk hfail h403
    unfold CatalogParser.getUrlLoop
    by_cases hki : k = i
    · subst hki
      rw [h403]
      simp
    · have hlt : i < k := lt_of_le_of_ne hik fun hc => hki hc.symm
      have hi : netFails (env.net url i) = true := hfail i le_rfl hlt
      rcases hn : env.net url i with _ | ⟨s, page2⟩
      · exact ih (i + 1) k page (by omega) (by omega)
          (fun j h1 h2 => hfail j (by omega) h2) h403
      · rw [hn] at hi
        simp only [netFails, Bool.and_eq_true, decide_eq_true_eq,
          Bool.not_eq_true'] at hi
        dsimp only
        rw [if_neg (by simp [hi.2]), if_pos (by simp [hi.1])]
        exact ih (i + 1) k page (by omega) (by omega)
          (fun j h1 h2 => hfail j (by omega) h2) h403

/-- C6: the page-fetch operation returns an HTML document or absence (its
result is an `Option`, every failure being caught internally); when every
configured attempt fails with a raised exception or a non-403 error
status, the fast path falls through to the headless-browser path; and
when a 403 response arrives at any attempt within the retry budget after
only failed attempts, the fast path falls through to the browser path at
once instead of failing. -/
theorem c6_get_url_fallthrough (env : FetchEnv) (url : PyStr) :
    ((CatalogParser.get_url env url).1 = none ∨
      ∃ p, (CatalogParser.get_url env url).1 = some p) ∧
    ((∀ j, 1 ≤ j → j ≤ env.retries → netFails (env.net url j) = true) →
      (CatalogParser.get_url env url).1 =
        (CatalogParser.fetch_html_with_browser env url).1) ∧
    (∀ k (page : Page), 1 ≤ k → k ≤ env.retries →
      (∀ j, 1 ≤ j → j < k → netFails (env.net url j) = true) →
      env.net url k = NetOutcome.resp 403 page →
      (CatalogParser.get_url env url).1 =
        (CatalogParser.fetch_html_with_browser env url).1) := by
  refine ⟨?_, ?_, ?_⟩
  · rcases h : (CatalogParser.get_url env url).1 with _ | p
    · exact Or.inl rfl
    · exact Or.inr ⟨p, rfl⟩
  · intro hfail
    exact getUrlLoop_all_fail env url env.retries 1
      fun j h1 h2 => hfail j h1 (by omega)
  · intro k page h1 h2 hfail h403
    exact getUrlLoop_403 env url env.retries 1 k page h1 (by omega)
      hfail h403

/-- Witness for C6 at concrete environments: with two retries and every
attempt raising, the fast path returns the browser result; and with a 403
on the first attempt it returns the browser result. -/
theorem c6_get_url_witness :
    (CatalogParser.get_url
      ⟨str "b", 2, true, fun _ => some ⟨[], [], [], [], [], none⟩,
       fun _ _ => NetOutcome.exc⟩ (str "u")).1 =
      (CatalogParser.fetch_html_with_browser
        ⟨str "b", 2, true, fun _ => some ⟨[], [], [], [], [], none⟩,
         fun _ _ => NetOutcome.exc⟩ (str "u")).1 ∧
    (CatalogParser.get_url
      ⟨str "b", 3, true, fun _ => none,
       fun _ _ => NetOutcome.resp 403 ⟨[], [], [], [], [], none⟩⟩
      (str "u")).1 =
      (CatalogParser.fetch_html_with_browser
        ⟨str "b", 3, true, fun _ => none,
         fun _ _ => NetOutcome.resp 403 ⟨[], [], [], [], [], none⟩⟩
        (str "u")).1 :=
  ⟨(c6_get_url_fallthrough _ (str "u")).2.1 (by decide),
   (c6_get_url_fallthrough _ (str "u")).2.2 1 ⟨[], [], [], [], [], none⟩
      (by decide) (by decide) (by omega) (by decide)⟩

theorem modelsPass1_mem (u : UrlLib) (base mk : PyStr) :
    ∀ (anchors : List Anchor) (seen : List PyStr) (c : ModelLink),
      c ∈ CatalogParser.modelsPass1 u base mk anchors seen →
      (pyStrip c.name = c.name ∧ c.name ≠ [] ∧ c.name.length ≤ 150) ∧
      (carPathCond (pyLower (u.urlpath c.url)) = true ∨
        makePathCond mk (pyLower (u.urlpath c.url)) = true) ∧
      seen.contains c.url = false := by
  intro anchors
  induction anchors with
  | nil =>
    intro seen c h
    cases h
  | cons a rest ih =>
    intro seen c h
    rw [CatalogParser.modelsPass1] at h
    split at h
    · exact ih seen c h
    · rename_i htext
      dsimp only at h
      split at h
      · exact ih seen c h
      · rename_i hseen
        simp only [Bool.or_eq_true, decide_eq_true_eq, not_or,
          List.isEmpty_eq_true] at htext
        simp only [Bool.not_eq_true] at hseen
        split at h
        · rename_i hcar
          rcases List.mem_cons.mp h with rfl | hmem
          · exact ⟨⟨pyStrip_idem a.text, htext.1, by
              show List.length (pyStrip a.text) ≤ 150
              have := htext.2
              omega⟩, Or.inl hcar, hseen⟩
          · have h2 := ih _ c hmem
            refine ⟨h2.1, h2.2.1, ?_⟩
            have h3 := h2.2.2
            simp only [List.contains_cons, Bool.or_eq_false_iff] at h3
            exact h3.2
        · split at h
          · split at h
            · rename_i hmk hparts
              rcases List.mem_cons.mp h with rfl | hmem
              · refine ⟨⟨pyStrip_idem a.text, htext.1, by
                  show List.length (pyStrip a.text) ≤ 150
                  have := htext.2
                  omega⟩, Or.inr ?_, hseen⟩
                simp only [makePathCond, Bool.and_eq_true, hmk,
                  decide_eq_true_eq, true_and]
                exact hparts
              · have h2 := ih _ c hmem
                refine ⟨h2.1, h2.2.1, ?_⟩
                have h3 := h2.2.2
                simp only [List.contains_cons, Bool.or_eq_false_iff] at h3
                exact h3.2
            · exact ih seen c h
          · exact ih seen c h

theorem modelsPass1_urls_nodup (u : UrlLib) (base mk : PyStr) :
    ∀ (anchors : List Anchor) (seen : List PyStr),
      ((CatalogParser.modelsPass1 u base mk anchors seen).map
        (fun c => c.url)).Nodup := by
  intro anchors
  induction anchors with
  | nil =>
    intro seen
    simp [CatalogParser.modelsPass1]
  | cons a rest ih =>
    intro seen
    rw [CatalogParser.modelsPass1]
    split
    · exact ih seen
    · dsimp only
      split
      · exact ih seen
      · split
        · rename_i hcar
          simp only [List.map_cons, List.nodup_cons]
          constructor
          · intro hmem
            obtain ⟨c, hc, hcu⟩ := List.mem_map.mp hmem
            have h2 := (modelsPass1_mem u base mk rest _ c hc).2.2
            rw [hcu] at h2
            simp [List.contains_cons] at h2
          · exact ih _
        · split
          · split
            · simp only [List.map_cons, List.nodup_cons]
              constructor
              · intro hmem
                obtain ⟨c, hc, hcu⟩ := List.mem_map.mp hmem
                have h2 := (modelsPass1_mem u base mk rest _ c hc).2.2
                rw [hcu] at h2
                simp [List.contains_cons] at h2
              · exact ih _
            · exact ih seen
          · exact ih seen

theorem dedupByName_sublist :
    ∀ (l : List ModelLink) (used : List PyStr),
      (CatalogParser.dedupByName l used).Sublist l := by
  intro l
  induction l with
  | nil =>
    intro used
    exact List.Sublist.refl []
  | cons m rest ih =>
    intro used
    rw [CatalogParser.dedupByName]
    split
    · exact List.Sublist.cons₂ m (ih _)
    · exact List.Sublist.cons m (ih _)

theorem dedupByName_mem_not_used :
    ∀ (l : List ModelLink) (used : List PyStr) (c : ModelLink),
      c ∈ CatalogParser.dedupByName l used →
      used.contains (pyStrip c.name) = false := by
  intro l
  induction l with
  | nil =>
    intro used c h
    cases h
  | cons m rest ih =>
    intro used c h
    rw [CatalogParser.dedupByName] at h
    split at h
    · rename_i hcond
      rcases List.mem_cons.mp h with rfl | hmem
      · simp only [Bool.and_eq_true, Bool.not_eq_true'] at hcond
        exact hcond.2
      · have h2 := ih _ c hmem
        simp only [List.contains_cons, Bool.or_eq_false_iff] at h2
        exact h2.2
    · exact ih _ c h

theorem dedupByName_names_nodup :
    ∀ (l : List ModelLink) (used : List PyStr),
      ((CatalogParser.dedupByName l used).map
        (fun c => pyStrip c.name)).Nodup := by
  intro l
  induction l with
  | nil =>
    intro used
    simp [CatalogParser.dedupByName]
  | cons m rest ih =>
    intro used
    rw [CatalogParser.dedupByName]
    split
    · simp only [List.map_cons, List.nodup_cons]
      constructor
      · intro hmem
        obtain ⟨c, hc, hcu⟩ := List.mem_map.mp hmem
        have h2 := dedupByName_mem_not_used rest _ c hc
        rw [hcu] at h2
        simp [List.contains_cons] at h2
      · exact ih _
    · exact ih _

theorem modelsPass1_eq_keepFirst (u : UrlLib) (base mk : PyStr) :
    ∀ (anchors : List Anchor) (seen : List PyStr),
      CatalogParser.modelsPass1 u base mk anchors seen =
        keepFirstByUrl ((rawModels u base mk anchors).filter
          fun c => !(seen.contains c.url)) := by
  intro anchors
  induction anchors with
  | nil =>
    intro seen
    simp [CatalogParser.modelsPass1, rawModels, keepFirstByUrl]
  | cons a rest ih =>
    intro seen
    simp only [CatalogParser.modelsPass1, rawModels]
    by_cases htext : (List.isEmpty (pyStrip a.text) ||
        decide (150 < (pyStrip a.text).length)) = true
    · rw [if_pos htext, if_pos htext]
      exact ih seen
    · rw [if_neg htext, if_neg htext]
      by_cases hseen :
          (seen.contains (u.urljoin base (pyStrip a.href))) = true
      · rw [if_pos hseen]
        by_cases hcar : (containsSub (str "/car/")
            (pyLower (u.urlpath (u.urljoin base (pyStrip a.href)))) &&
            containsSub (str ".html")
              (pyLower (u.urlpath (u.urljoin base (pyStrip a.href))))) = true
        · rw [if_pos hcar, List.filter_cons_of_neg (by rw [hseen]; decide)]
          exact ih seen
        · rw [if_neg hcar]
          by_cases hmk : (containsSub (str "/make/" ++ mk ++ str "/")
              (pyLower (u.urlpath (u.urljoin base (pyStrip a.href))))) = true
          · rw [if_pos hmk]
            by_cases hparts : 3 ≤ ((splitOnChar '/'
                (pyLower (u.urlpath (u.urljoin base
                  (pyStrip a.href))))).filter
                  (fun p => !p.isEmpty)).length
            · rw [if_pos hparts,
                List.filter_cons_of_neg (by rw [hseen]; decide)]
              exact ih seen
            · rw [if_neg hparts]
              exact ih seen
          · rw [if_neg hmk]
            exact ih seen
      · have hseen2 : seen.contains (u.urljoin base (pyStrip a.href))
            = false := Bool.eq_false_iff.mpr hseen
        rw [if_neg hseen]
        by_cases hcar : (containsSub (str "/car/")
            (pyLower (u.urlpath (u.urljoin base (pyStrip a.href)))) &&
            containsSub (str ".html")
              (pyLower (u.urlpath (u.urljoin base (pyStrip a.href))))) = true
        · rw [if_pos hcar, if_pos hcar,
            List.filter_cons_of_pos (by rw [hseen2]; decide),
            keepFirstByUrl]
          congr 1
          rw [ih (u.urljoin base (pyStrip a.href) :: seen),
            List.filter_filter]
          congr 1
          apply List.filter_congr
          intro x _
          simp only [List.contains_cons, Bool.not_or]
        · rw [if_neg hcar, if_neg hcar]
          by_cases hmk : (containsSub (str "/make/" ++ mk ++ str "/")
              (pyLower (u.urlpath (u.urljoin base (pyStrip a.href))))) = true
          · rw [if_pos hmk, if_pos hmk]
            by_cases hparts : 3 ≤ ((splitOnChar '/'
                (pyLower (u.urlpath (u.urljoin base
                  (pyStrip a.href))))).filter
                  (fun p => !p.isEmpty)).length
            · rw [if_pos hparts, if_pos hparts,
                List.filter_cons_of_pos (by rw [hseen2]; decide),
                keepFirstByUrl]
              congr 1
              rw [ih (u.urljoin base (pyStrip a.href) :: seen),
                List.filter_filter]
              congr 1
              apply List.filter_congr
              intro x _
              simp only [List.contains_cons, Bool.not_or]
            · rw [if_neg hparts, if_neg hparts]
              exact ih seen
          · rw [if_neg hmk, if_neg hmk]
            exact ih seen

theorem dedupByName_eq_keepFirst :
    ∀ (l : List ModelLink) (used : List PyStr),
      CatalogParser.dedupByName l used =
        keepFirstByName (l.filter fun x =>
          !(used.contains (pyStrip x.name))) := by
  intro l
  induction l with
  | nil =>
    intro used
    simp [CatalogParser.dedupByName, keepFirstByName]
  | cons m rest ih =>
    intro used
    rw [CatalogParser.dedupByName]
    by_cases hused : (used.contains (pyStrip m.name)) = true
    · rw [List.filter_cons_of_neg (by rw [hused]; decide)]
      rw [if_neg (by rw [hused]; simp)]
      exact ih used
    · have hused2 : used.contains (pyStrip m.name) = false :=
        Bool.eq_false_iff.mpr hused
      rw [List.filter_cons_of_pos (by rw [hused2]; decide),
        keepFirstByName]
      by_cases hlen : 2 ≤ (pyStrip m.name).length
      · rw [if_pos (by rw [hused2]; simp [hlen]), if_pos hlen]
        congr 1
        rw [ih (pyStrip m.name :: used), List.filter_filter]
        congr 1
        apply List.filter_congr
        intro x _
        simp only [List.contains_cons, Bool.not_or]
      · rw [if_neg (by simp [hlen]), if_neg hlen]
        exact ih used

theorem get_models_eq_keepFirst (u : UrlLib) (page : Page)
    (base make : PyStr) :
    CatalogParser.get_models_from_make_page u page base make =
      (keepFirstByName (keepFirstByUrl (rawModels u base
        (CatalogParser.normalize_make make) page.anchors))).take 100 := by
  unfold CatalogParser.get_models_from_make_page
  rw [modelsPass1_eq_keepFirst, dedupByName_eq_keepFirst]
  have hfilter : ∀ {α : Type} (p : α → Bool) (l : List α),
      (∀ a, p a = true) → l.filter p = l :=
    fun p l h => List.filter_eq_self.mpr fun a _ => h a
  rw [hfilter
      (fun (x : ModelLink) => !(([] : List PyStr).contains (pyStrip x.name)))
      _ fun a => rfl,
    hfilter (fun (c : ModelLink) => !(([] : List PyStr).contains c.url)) _
      fun a => rfl]

/-- C9: model-listing extraction returns only candidates whose resolved
lowered path passes the vehicle-detail test or the make-listing test with
at least three path components; every returned candidate has non-empty
display text of at most 150 characters; the result has no duplicate
resolved URLs and no duplicate display texts and is an order-preserving
subsequence of the accepted-anchor list; it contains at most 100
candidates; and it equals exactly the keep-first-occurrence
de-duplication, by resolved URL and then by stripped display name, of
the un-deduplicated accepted-anchor stream, truncated to 100 — so for
every duplicated URL or display text it is the first occurrence that is
kept. -/
theorem c9_make_page_extraction (u : UrlLib) (page : Page)
    (base make : PyStr) :
    (CatalogParser.get_models_from_make_page u page base make).length ≤ 100 ∧
    (∀ c ∈ CatalogParser.get_models_from_make_page u page base make,
      c.name ≠ [] ∧ c.name.length ≤ 150 ∧
      (carPathCond (pyLower (u.urlpath c.url)) = true ∨
        makePathCond (CatalogParser.normalize_make make)
          (pyLower (u.urlpath c.url)) = true)) ∧
    ((CatalogParser.get_models_from_make_page u page base make).map
      (fun c => c.url)).Nodup ∧
    ((CatalogParser.get_models_from_make_page u page base make).map
      (fun c => c.name)).Nodup ∧
    (CatalogParser.get_models_from_make_page u page base make).Sublist
      (CatalogParser.modelsPass1 u base
        (CatalogParser.normalize_make make) page.anchors []) ∧
    CatalogParser.get_models_from_make_page u page base make =
      (keepFirstByName (keepFirstByUrl (rawModels u base
        (CatalogParser.normalize_make make) page.anchors))).take 100 := by
  have hsub1 : (CatalogParser.get_models_from_make_page u page base
      make).Sublist
      (CatalogParser.dedupByName (CatalogParser.modelsPass1 u base
        (CatalogParser.normalize_make make) page.anchors []) []) :=
    List.take_sublist 100 _
  have hsub2 := dedupByName_sublist (CatalogParser.modelsPass1 u base
    (CatalogParser.normalize_make make) page.anchors []) []
  have hsub := hsub1.trans hsub2
  have hmem : ∀ c ∈ CatalogParser.get_models_from_make_page u page base make,
      c ∈ CatalogParser.modelsPass1 u base
        (CatalogParser.normalize_make make) page.anchors [] :=
    fun c hc => hsub.subset hc
  have hprops := fun c hc => modelsPass1_mem u base
    (CatalogParser.normalize_make make) page.anchors [] c (hmem c hc)
  refine ⟨?_, ?_, ?_, ?_, hsub, get_models_eq_keepFirst u page base make⟩
  · exact List.length_take_le 100 _
  · intro c hc
    have h := hprops c hc
    exact ⟨h.1.2.1, h.1.2.2, h.2.1⟩
  · exact ((modelsPass1_urls_nodup u base
      (CatalogParser.normalize_make make) page.anchors []).sublist
      (hsub.map (fun c => c.url)))
  · have hnd := (dedupByName_names_nodup (CatalogParser.modelsPass1 u base
      (CatalogParser.normalize_make make) page.anchors []) []).sublist
      (hsub1.map (fun c => pyStrip c.name))
    have heq : (CatalogParser.get_models_from_make_page u page base
        make).map (fun c => pyStrip c.name) =
        (CatalogParser.get_models_from_make_page u page base make).map
          (fun c => c.name) :=
      List.map_congr_left fun c hc => (hprops c hc).1.1
    rw [heq] at hnd
    exact hnd

/-- Witness for C9 at concrete pages: a single anchor with path
"/car/x.html" and text "Alpha" survives extraction and satisfies the
stated properties with the result length within the cap; and on a page
with a duplicated URL and a duplicated display text, the first
occurrence ("/car/a.html" with text "Alpha One") is the one kept. -/
theorem c9_make_page_extraction_witness :
    (CatalogParser.get_models_from_make_page
      ⟨fun b h => b ++ h, fun x => x⟩
      ⟨[⟨str "/car/x.html", str "Alpha"⟩], [], [], [], [], none⟩
      (str "") (str "BMW")).length ≤ 100 ∧
    ((str "Alpha" : PyStr) ≠ [] ∧ (str "Alpha" : PyStr).length ≤ 150 ∧
      (carPathCond (pyLower ((str "" : PyStr) ++ str "/car/x.html")) = true ∨
        makePathCond (CatalogParser.normalize_make (str "BMW"))
          (pyLower ((str "" : PyStr) ++ str "/car/x.html")) = true)) ∧
    CatalogParser.get_models_from_make_page
      ⟨fun b h => b ++ h, fun x => x⟩
      ⟨[⟨str "/car/a.html", str "Alpha One"⟩,
        ⟨str "/car/b.html", str "Alpha One"⟩,
        ⟨str "/car/a.html", str "Other Name"⟩], [], [], [], [], none⟩
      (str "") (str "BMW") =
      [⟨(str "" : PyStr) ++ str "/car/a.html", str "Alpha One"⟩] :=
  ⟨(c9_make_page_extraction ⟨fun b h => b ++ h, fun x => x⟩
      ⟨[⟨str "/car/x.html", str "Alpha"⟩], [], [], [], [], none⟩
      (str "") (str "BMW")).1,
   (c9_make_page_extraction ⟨fun b h => b ++ h, fun x => x⟩
      ⟨[⟨str "/car/x.html", str "Alpha"⟩], [], [], [], [], none⟩
      (str "") (str "BMW")).2.1
      ⟨(str "" : PyStr) ++ str "/car/x.html", str "Alpha"⟩ (by decide),
   by decide⟩

theorem fetch_browser_none (env : FetchEnv) (url : PyStr)
    (hb : ∀ v, env.browser v = none) :
    (CatalogParser.fetch_html_with_browser env url).1 = none := by
  unfold CatalogParser.fetch_html_with_browser
  split
  · exact hb url
  · rfl

theorem getUrlLoop_none (env : FetchEnv) (url : PyStr)
    (hb : ∀ v, env.browser v = none)
    (hn : ∀ v i, env.net v i = NetOutcome.exc) :
    ∀ (rem i : Nat), (CatalogParser.getUrlLoop env url i rem).1 = none := by
  intro rem
  induction rem with
  | zero =>
    intro i
    exact fetch_browser_none env url hb
  | succ n ih =>
    intro i
    unfold CatalogParser.getUrlLoop
    rw [hn url i]
    exact ih (i + 1)

theorem get_url_none (env : FetchEnv) (url : PyStr)
    (hb : ∀ v, env.browser v = none)
    (hn : ∀ v i, env.net v i = NetOutcome.exc) :
    (CatalogParser.get_url env url).1 = none :=
  getUrlLoop_none env url hb hn env.retries 1

theorem fetch_models_none (env : FetchEnv) (u : UrlLib) (make : PyStr)
    (hb : ∀ v, env.browser v = none) :
    (CatalogParser.fetch_models_for_make env u make).1 = [] := by
  unfold CatalogParser.fetch_models_for_make
  dsimp only
  rw [fetch_browser_none env _ hb]

theorem fetch_search_none (env : FetchEnv) (u : UrlLib) (make model : PyStr)
    (hb : ∀ v, env.browser v = none) :
    (CatalogParser.fetch_car_links_via_search env u make model).1 = [] := by
  unfold CatalogParser.fetch_car_links_via_search
  dsimp only
  rw [fetch_browser_none env _ hb]

theorem fetch_car_specs_none (env : FetchEnv) (u : UrlLib)
    (make model url : PyStr) (hb : ∀ v, env.browser v = none)
    (hn : ∀ v i, env.net v i = NetOutcome.exc) :
    (CatalogParser.fetch_car_specs env u make model url).1 = none := by
  unfold CatalogParser.fetch_car_specs
  dsimp only
  rw [fetch_browser_none env _ hb]
  dsimp only
  rw [get_url_none env _ hb hn]

theorem find_model_audi_offline (env : FetchEnv) (u : UrlLib)
    (hb : ∀ v, env.browser v = none) :
    (CatalogParser.find_model_by_name env u (str "Audi") (str "TT RS")).1 =
      some ⟨str "https://www.automobile-catalog.com/car/2018/2470640/audi_tt_rs_coupe_s-tronic.html",
            str "TT RS"⟩ := by
  unfold CatalogParser.find_model_by_name
  dsimp only
  rw [fetch_models_none env u _ hb]
  rw [if_pos (by decide :
    (([] : List ModelLink).isEmpty && !(str "TT RS").isEmpty) = true)]
  dsimp only
  rw [fetch_search_none env u _ _ hb]
  rfl

theorem run_with_model_demo (env : FetchEnv) (u : UrlLib)
    (outDir brandIn model : PyStr) (output : Option PyStr) (link : ModelLink)
    (hbrand : (pyStrip brandIn).isEmpty = false)
    (hmodel : model.isEmpty = false)
    (hfind : (CatalogParser.find_model_by_name env u (pyStrip brandIn)
      model).1 = some link)
    (hcs : (CatalogParser.fetch_car_specs env u (pyStrip brandIn) model
      link.url).1 = none) :
    (Main.run env u outDir brandIn (some model) output).1 =
      Except.ok (Main.mkDemoCarSpecs (pyStrip brandIn) model,
        Main.outPath outDir output
          (Main.mkDemoCarSpecs (pyStrip brandIn) model)) := by
  simp only [Main.run]
  rw [hbrand]
  simp only [Bool.false_eq_true, if_false]
  rw [hmodel]
  simp only [Bool.false_eq_true, if_false]
  rw [hfind]
  dsimp only
  rw [hcs]
  rfl

/-- C1: for the run with make "Audi" and model "TT RS", when every
network and browser fetch yields absence, the specification handed to the
renderer has attributes equal to the fallback knowledge-base entry stored
under the exact key ("audi", "tt rs") and an absent photo URL. -/
theorem c1_audi_ttrs_offline (env : FetchEnv) (u : UrlLib) (outDir : PyStr)
    (hb : ∀ v, env.browser v = none)
    (hn : ∀ v i, env.net v i = NetOutcome.exc) :
    ∃ cs path,
      (Main.run env u outDir (str "Audi") (some (str "TT RS")) none).1 =
        Except.ok (cs, path) ∧
      DEMO_SPECS_DB.find? (kbExactP (str "audi") (str "tt rs")) =
        some ((str "audi", str "tt rs"), cs.specs) ∧
      cs.image_url = none := by
  have hstrip : pyStrip (str "Audi") = str "Audi" := by decide
  have hfind : (CatalogParser.find_model_by_name env u (pyStrip (str "Audi"))
      (str "TT RS")).1 =
      some ⟨str "https://www.automobile-catalog.com/car/2018/2470640/audi_tt_rs_coupe_s-tronic.html",
            str "TT RS"⟩ := by
    rw [hstrip]
    exact find_model_audi_offline env u hb
  have hcs := fetch_car_specs_none env u (pyStrip (str "Audi")) (str "TT RS")
    (str "https://www.automobile-catalog.com/car/2018/2470640/audi_tt_rs_coupe_s-tronic.html")
    hb hn
  have hrun := run_with_model_demo env u outDir (str "Audi") (str "TT RS")
    none
    ⟨str "https://www.automobile-catalog.com/car/2018/2470640/audi_tt_rs_coupe_s-tronic.html",
     str "TT RS"⟩
    (by decide) (by decide) hfind hcs
  refine ⟨Main.mkDemoCarSpecs (pyStrip (str "Audi")) (str "TT RS"),
    Main.outPath outDir none
      (Main.mkDemoCarSpecs (pyStrip (str "Audi")) (str "TT RS")),
    hrun, ?_, rfl⟩
  decide

/-- Witness for C1 at a concrete all-absent environment. -/
theorem c1_audi_ttrs_offline_witness :
    ∃ cs path,
      (Main.run ⟨str "b", 3, true, fun _ => none, fun _ _ => NetOutcome.exc⟩
        ⟨fun _ h => h, fun x => x⟩ (str "output") (str "Audi")
        (some (str "TT RS")) none).1 = Except.ok (cs, path) ∧
      DEMO_SPECS_DB.find? (kbExactP (str "audi") (str "tt rs")) =
        some ((str "audi", str "tt rs"), cs.specs) ∧
      cs.image_url = none :=
  c1_audi_ttrs_offline ⟨str "b", 3, true, fun _ => none,
      fun _ _ => NetOutcome.exc⟩ ⟨fun _ h => h, fun x => x⟩ (str "output")
    (fun _ => rfl) (fun _ _ => rfl)

/-- C3: for every make that is empty or whitespace-only after trimming,
the run raises the validation error with an empty effect trace: no
network attempt, no browser fetch, no knowledge-base lookup and no
rendering happened before the failure. -/
theorem c3_empty_make_validation (env : FetchEnv) (u : UrlLib)
    (outDir brandIn : PyStr) (modelIn output : Option PyStr)
    (h : pyStrip brandIn = []) :
    Main.run env u outDir brandIn modelIn output =
      (Except.error RunError.emptyBrand, []) := by
  simp only [Main.run]
  rw [h]
  rfl

/-- Witness for C3: a whitespace-only make fails validation with an empty
effect trace in a concrete environment. -/
theorem c3_empty_make_validation_witness :
    Main.run ⟨str "b", 3, true, fun _ => none, fun _ _ => NetOutcome.exc⟩
      ⟨fun _ h => h, fun x => x⟩ (str "out") (str "   ")
      (some (str "M3")) none = (Except.error RunError.emptyBrand, []) :=
  c3_empty_make_validation _ _ _ _ _ _ (by decide)

/-- C10: when no model is requested and live resolution fails (no models
extracted, or the fetch yields nothing, or the fetched specification has
empty attributes), the run builds its specification from a hardcoded
fallback model name: "TT RS" when the trimmed make lowercases to "audi",
"Sport" otherwise; the knowledge-base lookup, the model field, the
display name and the default output filename all use that fallback name. -/
theorem c10_no_model_hardcoded_fallback (env : FetchEnv) (u : UrlLib)
    (outDir brandIn : PyStr) (output : Option PyStr)
    (hbrand : (pyStrip brandIn).isEmpty = false)
    (hfail : (CatalogParser.fetch_models_for_make env u
        (pyStrip brandIn)).1 = [] ∨
      ∃ first rest,
        (CatalogParser.fetch_models_for_make env u (pyStrip brandIn)).1 =
          first :: rest ∧
        ((CatalogParser.fetch_car_specs env u (pyStrip brandIn) first.name
            first.url).1 = none ∨
         ∃ cs, (CatalogParser.fetch_car_specs env u (pyStrip brandIn)
            first.name first.url).1 = some cs ∧ cs.specs = [])) :
    let brand := pyStrip brandIn
    let fb := if pyLower brand == str "audi" then str "TT RS"
      else str "Sport"
    (Main.run env u outDir brandIn none output).1 =
      Except.ok (Main.mkDemoCarSpecs brand fb,
        Main.outPath outDir output (Main.mkDemoCarSpecs brand fb)) ∧
    (pyLower brand = str "audi" → fb = str "TT RS") ∧
    (pyLower brand ≠ str "audi" → fb = str "Sport") ∧
    (Main.mkDemoCarSpecs brand fb).model = fb ∧
    (Main.mkDemoCarSpecs brand fb).specs = get_demo_specs brand fb ∧
    (Main.mkDemoCarSpecs brand fb).full_name = brand ++ str " " ++ fb ∧
    Main.outPath outDir none (Main.mkDemoCarSpecs brand fb) =
      outDir ++ str "/" ++ brand ++ str "_" ++ Main.sanitizeModel fb
        ++ str ".png" := by
  refine ⟨?_, ?_, ?_, rfl, rfl, rfl, rfl⟩
  · simp only [Main.run]
    rw [hbrand]
    simp only [Bool.false_eq_true, if_false]
    rcases hfail with hm | ⟨first, rest, hm, hcs⟩
    · rw [hm]
      rfl
    · rw [hm]
      dsimp only
      rcases hcs with hcs | ⟨cs, hcs, hempty⟩
      · rw [hcs]
        rfl
      · rw [hcs]
        dsimp only
        rw [hempty]
        rfl
  · intro h
    simp only [h]
    rfl
  · intro h
    have hne : (pyLower (pyStrip brandIn) == str "audi") = false := by
      simp only [beq_eq_false_iff_ne, ne_eq]
      exact h
    simp only [hne]
    rfl

/-- Witness for C10 at concrete all-absent environments: a non-Audi make
falls back to model "Sport", an Audi make falls back to "TT RS", and both
drive the name, knowledge-base lookup and filename. -/
theorem c10_no_model_hardcoded_fallback_witness :
    ((Main.run ⟨str "b", 3, true, fun _ => none, fun _ _ => NetOutcome.exc⟩
        ⟨fun _ h => h, fun x => x⟩ (str "o") (str "BMW") none none).1 =
      Except.ok (Main.mkDemoCarSpecs (str "BMW") (str "Sport"),
        Main.outPath (str "o") none
          (Main.mkDemoCarSpecs (str "BMW") (str "Sport")))) ∧
    ((Main.run ⟨str "b", 3, true, fun _ => none, fun _ _ => NetOutcome.exc⟩
        ⟨fun _ h => h, fun x => x⟩ (str "o") (str " Audi ") none none).1 =
      Except.ok (Main.mkDemoCarSpecs (str "Audi") (str "TT RS"),
        Main.outPath (str "o") none
          (Main.mkDemoCarSpecs (str "Audi") (str "TT RS")))) :=
  ⟨(c10_no_model_hardcoded_fallback
      ⟨str "b", 3, true, fun _ => none, fun _ _ => NetOutcome.exc⟩
      ⟨fun _ h => h, fun x => x⟩ (str "o") (str "BMW") none (by decide)
      (Or.inl (fetch_models_none _ _ _ fun _ => rfl))).1,
   (c10_no_model_hardcoded_fallback
      ⟨str "b", 3, true, fun _ => none, fun _ _ => NetOutcome.exc⟩
      ⟨fun _ h => h, fun x => x⟩ (str "o") (str " Audi ") none (by decide)
      (Or.inl (fetch_models_none _ _ _ fun _ => rfl))).1⟩
